import Mathlib

/-!
Verification development for the "Hustle Trail" game engine
(src/main.py, with the analogous simpler revision src/hustle_trail.py).

Modelling conventions:
* Python floats are modelled as rationals (`ℚ`); Python ints as `Nat`/`Int`.
* RNG draws (`random.random()`, `random.randint`, `random.choice`) are
  explicit parameters: a `random()` roll is a `ℚ` parameter, a
  `randint(a, b)` is modelled as `a + draw % (b - a + 1)` for an arbitrary
  `Nat` draw, and a `random.choice(pool)` is `pool[draw % pool.length]`.
* The mutable `Game` object is a `GState` record holding the fields of the
  trail/event/remedy core.  Pure-display fields (`event_text`, log
  messages, quote/death-reason string contents, sounds, sprite positions)
  and the arcade mini-game internals (states 2/3/10/11 sub-updates) are
  outside the modelled core; where the core merely *selects* a display
  string from a pool, the selected pool index is carried instead.
-/

/-- Python `min` on rationals, written so that kernel reduction works. -/
def qmin (a b : ℚ) : ℚ := if a ≤ b then a else b

/-- Python `max` on rationals, written so that kernel reduction works. -/
def qmax (a b : ℚ) : ℚ := if a ≤ b then b else a

theorem qmin_le_left (a b : ℚ) : qmin a b ≤ a := by
  unfold qmin; split <;> [exact le_refl a; exact le_of_not_le (by assumption)]

theorem qmin_le_right (a b : ℚ) : qmin a b ≤ b := by
  unfold qmin; split <;> [assumption; exact le_refl b]

theorem le_qmax_left (a b : ℚ) : a ≤ qmax a b := by
  unfold qmax; split <;> [assumption; exact le_refl a]

theorem le_qmax_right (a b : ℚ) : b ≤ qmax a b := by
  unfold qmax; split <;> [exact le_refl b; exact le_of_not_le (by assumption)]

theorem qmax_le (a b c : ℚ) (h1 : a ≤ c) (h2 : b ≤ c) : qmax a b ≤ c := by
  unfold qmax; split <;> assumption

theorem le_qmin (a b c : ℚ) (h1 : c ≤ a) (h2 : c ≤ b) : c ≤ qmin a b := by
  unfold qmin; split <;> assumption

/-- Trail segments, derived from distance (`Game.get_trail_segment`). -/
inductive Segment where
  | early
  | mid
  | late
deriving DecidableEq, Repr

/-- `Game.get_trail_segment` (main.py lines 544-551): EARLY below 700,
MID below 1400, LATE otherwise. -/
def trailSegment (distance : ℚ) : Segment :=
  if distance < 700 then .early
  else if distance < 1400 then .mid
  else .late

/-- `Game.get_segment_risk` (main.py lines 563-571). -/
def segmentRisk (distance : ℚ) : ℚ :=
  match trailSegment distance with
  | .early => 0.15
  | .mid => 0.25
  | .late => 0.35

/-- `Game.get_pace_speed` (main.py lines 573-576): distance increment per
frame; unknown pace values fall back to 0.5 (`dict.get` default). -/
def paceSpeed (pace : Nat) : ℚ :=
  if pace = 1 then 0.5
  else if pace = 2 then 0.75
  else if pace = 3 then 1.0
  else 0.5

/-- `Game.get_pace_drain` (main.py lines 578-581): runway drain per frame;
unknown pace values fall back to 0.02. -/
def paceDrain (pace : Nat) : ℚ :=
  if pace = 1 then 0.02
  else if pace = 2 then 0.035
  else if pace = 3 then 0.05
  else 0.02

/-- The event kinds of `Game.trigger_random_event` (main.py lines 845-909). -/
inductive EventKind where
  | river
  | breakdown
  | sickness
  | decision
  | dilemma
  | ycLottery
  | tweet
  | windfall
  | erlich
  | hotdog
  | gilfoyle
deriving DecidableEq, Repr

/-- Weight table used for segments EARLY and MID (main.py lines 849-861). -/
def eventsEarlyMid : List (EventKind × Nat) :=
  [(.river, 10), (.breakdown, 8), (.sickness, 6), (.decision, 8),
   (.dilemma, 18), (.ycLottery, 5), (.tweet, 10), (.windfall, 7),
   (.erlich, 10), (.hotdog, 10), (.gilfoyle, 8)]

/-- Weight table used for segment LATE (main.py lines 863-876). -/
def eventsLate : List (EventKind × Nat) :=
  [(.river, 8), (.breakdown, 8), (.sickness, 10), (.decision, 6),
   (.dilemma, 18), (.ycLottery, 8), (.tweet, 8), (.windfall, 7),
   (.erlich, 10), (.hotdog, 8), (.gilfoyle, 9)]

/-- The accumulate-and-break loop of `Game.trigger_random_event`
(main.py lines 880-886): walk the list keeping a running cumulative
weight, stop at the first entry whose cumulative weight reaches `r`. -/
def rouletteWalk {α : Type} (r : Nat) : Nat → List (α × Nat) → Option α
  | _, [] => none
  | cum, (e, w) :: rest => if r ≤ cum + w then some e else rouletteWalk r (cum + w) rest

/-- Weighted selection of `Game.trigger_random_event` (main.py lines
878-886): `chosen` is initialised to `decision` and overwritten by the
first entry whose cumulative weight reaches the draw `r`. -/
def selectEvent (events : List (EventKind × Nat)) (r : Nat) : EventKind :=
  (rouletteWalk r 0 events).getD .decision

/-- Total weight of a table (`total = sum(w for _, w in events)`). -/
def totalWeight {α : Type} (events : List (α × Nat)) : Nat :=
  (events.map (·.2)).sum

/-- Cumulative weight of the first `n` entries of a table. -/
def cumWeight {α : Type} (events : List (α × Nat)) (n : Nat) : Nat :=
  ((events.take n).map (·.2)).sum

/-- Fail-chance table of `Game.handle_river_choice` (main.py line 1030),
with the `dict.get(choice, 0.25)` default. -/
def riverFailBase (choice : Nat) : ℚ :=
  if choice = 1 then 0.40
  else if choice = 2 then 0.25
  else if choice = 3 then 0.10
  else if choice = 4 then 0.00
  else 0.25

/-- Effective river fail chance (main.py lines 1030-1037): subtract 0.10
for the warm-intro perk and 0.05 for the elite-credential perk, then
floor at 0. -/
def riverEffectiveFail (choice : Nat) (warmIntro eliteCollege : Bool) : ℚ :=
  let afterWarm := if warmIntro then riverFailBase choice - 0.10 else riverFailBase choice
  let afterElite := if eliteCollege then afterWarm - 0.05 else afterWarm
  qmax 0 afterElite

/-- Death-chance table inside the river failure branch (main.py line 1054);
the `dict.get(..., 0.15)` default is unreachable for `Segment` values. -/
def riverDeathChance (seg : Segment) : ℚ :=
  match seg with
  | .early => 0.10
  | .mid => 0.20
  | .late => 0.30

/-- One co-founder record of the team roster (main.py lines 348-355);
only the `alive` flag is behaviour-relevant. -/
structure CoFounder where
  name : String
  alive : Bool
deriving DecidableEq, Repr

/-- The bonus mini-game kinds (`bonus_type` strings in the source). -/
inductive BonusKind where
  | galaga
  | mario
  | frogger
  | boss
deriving DecidableEq, Repr

/-- The cycle-arcade rotation entries (main.py line 516). -/
inductive ArcadeKind where
  | hunt
  | galaga
  | boss
  | mario
  | frogger
deriving DecidableEq, Repr

/-- `self.arcade_rotation = ["hunt", "galaga", "boss", "mario", "frogger"]`. -/
def arcadeRotation : List ArcadeKind :=
  [.hunt, .galaga, .boss, .mario, .frogger]

/-- Which quote pool a terminal loss drew its `death_quote` from
(main.py lines 3119-3141): the three pools correspond to the three loss
reasons runway / equity / team. -/
inductive DeathPool where
  | runwayPool
  | equityPool
  | teamPool
deriving DecidableEq, Repr

/-- The mutable `Game` state restricted to the trail/event/remedy core.
Pure-display strings selected from pools are carried as pool indices
(`current_quote`, `death_quote`, `event_victim`, `event_dilemma`,
`hotdog_item`, `gilfoyle_pact`, `erlich_rant`, `tweet_target`).
Defaults are the `Game.__init__` values (main.py lines 275-538); the
`__init__` draws `next_event_at ∈ [800,1500]` and
`hunt_next_at ∈ [1000,1500]`. -/
structure GState where
  runway : ℚ := 100
  equity : ℚ := 100
  traction : ℚ := 0
  distance : ℚ := 0
  pace : Nat := 1
  state : Int := 0
  paused : Bool := false
  pause_timer : Int := 0
  remedy_active : Bool := false
  remedy_timer : Int := 0
  selected_remedy : String := ""
  event_result : Option String := none
  event_result_timer : Int := 0
  current_event : Option EventKind := none
  event_options : List String := []
  event_victim : Option Nat := none
  event_dilemma : Option Nat := none
  hotdog_item : Option Nat := none
  gilfoyle_pact : Option Nat := none
  erlich_rant : Option Nat := none
  tweet_target : Option Nat := none
  tweet_done : Bool := false
  tweet_timer : Int := 0
  tweet_mobile : Bool := false
  tweet_input : String := ""
  tweet_options : List String := []
  event_timer : Nat := 0
  next_event_at : Nat := 800
  trail_round_active : Bool := false
  trail_round_timer : Int := 0
  round_in_cycle : Nat := 0
  cycle_number : Nat := 0
  arcade_rotation_index : Nat := 0
  cycle_arcade_active : Bool := false
  bonus_type : Option BonusKind := none
  bonus_timer : Int := 0
  bonus_score : Nat := 0
  hunt_distance_trigger : ℚ := 0
  hunt_next_at : Nat := 1000
  co_founders : List CoFounder :=
    [⟨"Jane", true⟩, ⟨"Alex", true⟩, ⟨"Sam", true⟩]
  quote_timer : Int := 0
  current_quote : Option Nat := none
  death_quote : Option (DeathPool × Nat) := none
  warm_intro : Bool := false
  elite_college : Bool := false
  is_touch : Bool := false
deriving Repr

/-- `self.remedy_threshold = 30` (main.py line 393). -/
def remedyThreshold : ℚ := 30

/-- Indices of the currently-alive co-founders, in roster order
(`[cf for cf in self.co_founders if cf["alive"]]`, keeping positions so
a kill can be written back). -/
def aliveIndices (cfs : List CoFounder) : List Nat :=
  (List.range cfs.length).filter fun i => ((cfs.get? i).map (·.alive)).getD false

/-- Mark the co-founder at roster index `i` as not alive. -/
def killCoFounder (cfs : List CoFounder) (i : Nat) : List CoFounder :=
  cfs.mapIdx fun j cf => if j = i then { cf with alive := false } else cf

/-- `alive_count = sum(1 for cf in self.co_founders if cf["alive"])`. -/
def aliveCount (cfs : List CoFounder) : Nat :=
  (cfs.filter (·.alive)).length

/-- River-crossing menu (main.py lines 921-926). -/
def riverOptions : List String :=
  ["1: Ford the river (YOLO) - 40% fail risk",
   "2: Caulk startup vehicle & float - 25% fail risk",
   "3: Wait for conditions - 10% fail, costs time",
   "4: Pay for ferry - Safe, -15 runway"]

/-- Breakdown templates (main.py lines 933-942): prompt text and the
two-choice menu of each. -/
def breakdowns : List (String × List String) :=
  [("Codebase has spaghetti. Refactor or ship broken?",
    ["1: Refactor (-20 runway, safe)", "2: Ship it (30% -15 equity)"]),
   ("Server crashed at 2AM. Fix now or sleep?",
    ["1: Fix now (-15 runway)", "2: Sleep (25% lose traction)"]),
   ("Dependency deprecated. Migrate or hack?",
    ["1: Migrate (-25 runway, +10 equity)", "2: Hack (40% -20 equity)"]),
   ("Investor deck corrupted. Rebuild or wing it?",
    ["1: Rebuild (-10 runway)", "2: Wing it (35% -25 traction)"])]

/-- Sickness menu (main.py lines 969-973). -/
def sicknessOptions : List String :=
  ["1: Rest & recover (-25 runway, safe)",
   "2: Push through (30% they leave)",
   "3: Team retreat (-15 runway, +10 equity)"]

/-- Decision templates (main.py lines 980-997). -/
def decisions : List (String × List String) :=
  [("VC wants board seat for $500K.",
    ["1: Accept (+30 runway, -20 equity)", "2: Counter (-10 runway, +10 traction)"]),
   ("Competitor launched same feature!",
    ["1: Pivot fast (-20 runway, +15 traction)", "2: Double down (+10 equity)"]),
   ("TechCrunch wants interview.",
    ["1: Do it (+20 traction, -10 runway)", "2: Focus on product (+10 equity)"]),
   ("Engineer wants 4-day work week.",
    ["1: Allow (+15 equity, -10 runway)", "2: Deny (-20 equity, +10 runway)"]),
   ("User growth flat. Pivot to AI?",
    ["1: Pivot to AI (-15 equity, +25 traction)", "2: Stay course (+10 equity)"]),
   ("YC or Hustle Fund?",
    ["1: YC (+20 traction, -15 equity)", "2: Hustle Fund (+15 equity, +10 traction)"]),
   ("Thirst trap for engagement?",
    ["1: Post it (+20 traction, -10 equity)", "2: Stay professional (+5 equity)"]),
   ("$50K OpenAI bill arrived.",
    ["1: Pay it (-30 runway)", "2: Build in-house (-15 equity, +10 traction)"])]

/-- Windfall table (main.py lines 1008-1014): message, runway gain,
equity gain, traction gain. -/
def windfalls : List (String × Nat × Nat × Nat) :=
  [("Angel investor dropped $25K!", 25, 0, 0),
   ("Viral tweet! +30 traction!", 0, 0, 30),
   ("Product Hunt feature!", 10, 10, 15),
   ("Eric Bahn retweeted you!", 0, 5, 25),
   ("Customer paid annual upfront!", 20, 5, 10)]

/-- YC lottery menu (main.py lines 1810-1813). -/
def ycOptions : List String :=
  ["1: Check inbox (1% JACKPOT, 99% rejection)",
   "2: Don\u0027t look, keep building (-5 runway, +10 traction)"]

/-- Erlich rant menu (main.py lines 2088-2092). -/
def erlichOptions : List String :=
  ["1: Listen to the whole rant (+8 traction hype, -5 runway wasted)",
   "2: Interrupt him (-3 equity awkward, +3 runway saved)",
   "3: Quote-tweet his rant (50/50: +15 viral or -10 roasted)"]

/-- Hot-dog menu (main.py lines 2183-2186). -/
def hotdogOptions : List String :=
  ["1: HOT DOG", "2: NOT HOT DOG"]

/-- `HOTDOG_ITEMS` (main.py lines 2152-2170): item name, whether it is a
hot dog, and the flavor reply. -/
def hotdogItems : List (String × Bool × String) :=
  [("A actual hot dog", true, "Hot dog."),
   ("A bratwurst in a bun", true, "Technically... hot dog."),
   ("A corn dog", true, "Hot dog. Corn style."),
   ("A Chicago-style dog", true, "Hot dog. Very Chicago."),
   ("A slim jim", true, "...hot dog. Slim version."),
   ("Your SaaS dashboard", false, "Not hot dog."),
   ("A series A term sheet", false, "Not hot dog. Paper only."),
   ("A Kubernetes cluster", false, "Not hot dog. Is yaml."),
   ("Gavin Belson\u0027s ego", false, "Not hot dog. Is nightmare."),
   ("A product roadmap", false, "Not hot dog. Is wishful thinking."),
   ("An NFT of a hot dog", false, "Not hot dog. Is screenshot."),
   ("A pivot strategy", false, "Not hot dog. Is desperation."),
   ("Erlich\u0027s vape pen", false, "Not hot dog. Is health hazard."),
   ("Your burn rate chart", false, "Not hot dog. Is scary."),
   ("A WeWork membership", false, "Not hot dog. Is overpriced couch."),
   ("A foot-long sub", true, "Hot dog. Big version.")]

/-- `TWEET_PROMPTS` (main.py lines 1856-1869): target and mangled text. -/
def tweetPrompts : List (String × String) :=
  [("pivot to AI", "pirate to AI"),
   ("raise seed round", "raise weed round"),
   ("product market fit", "product market fist"),
   ("disrupt the market", "disrupt the muppet"),
   ("scale to millions", "scale to minions"),
   ("ship the MVP", "ship the MV-Pee"),
   ("close Series A", "close Serious A"),
   ("iterate quickly", "irritate quickly"),
   ("growth hacking", "growth whacking"),
   ("exit strategy", "exit tragedy"),
   ("burn rate is fine", "burn rate is fire"),
   ("10x engineer", "10x endanger")]

/-- Tweet menu shown on desktop (main.py lines 1897-1900). -/
def tweetDesktopOptions : List String :=
  ["Type it correctly in 5 seconds!",
   "30% chance auto-correct mangles it anyway..."]

/-- `self.death_reasons` (main.py lines 445-456). -/
def deathReasons : List String :=
  ["left to become a plumber in Phoenix",
   "moved to Bali for \u0027spiritual alignment\u0027",
   "went full stripper at a crypto conference",
   "got poached by a Series D company",
   "had a breakdown and joined a cult",
   "became a TikTok influencer instead",
   "ghosted the team for a solo project",
   "went back to consulting at McKinsey",
   "had an existential crisis about TAM",
   "took a sabbatical that never ended"]

/-- One choice row of `SV_DILEMMAS` (main.py lines 1157-1266): label and
rating strings plus the numeric payoff/odds columns; `goodChance` and
`goodExtra` default to 0 when the source row has no such keys. -/
structure DilemmaChoice where
  text : String
  rating : String
  baseRunway : Int
  worseChance : Nat
  worseExtra : Int
  worseEffect : String
  goodChance : Nat := 0
  goodExtra : Int := 0
deriving Repr

/-- The twelve `SV_DILEMMAS` choice tables (prompt texts are display-only
and omitted). -/
def svDilemmas : List (List DilemmaChoice) :=
  [[⟨"Lay off 50% (Safe)", "Safe", 10, 20, -15, "Co-founder to Bali quit", 0, 0⟩,
    ⟨"Shutdown (Balanced)", "Balanced", -20, 30, -10, "Full team scatter", 0, 0⟩,
    ⟨"Down round (Risky)", "Risky", -30, 50, -20, "Heavy dilution roast", 0, 0⟩,
    ⟨"Pivot AI (Aggressive)", "Aggressive", -40, 40, -20, "Hype crash", 30, 50⟩],
   [⟨"Fire CTO (Safe)", "Safe", 5, 20, -15, "Morale dip", 0, 0⟩,
    ⟨"Keep CTO (Balanced)", "Balanced", -10, 30, -10, "Ongoing drag", 0, 0⟩,
    ⟨"Demote CTO (Risky)", "Risky", -20, 40, -20, "Plumber gig quit", 0, 0⟩,
    ⟨"Erlich mediate (Aggressive)", "Aggressive", -15, 30, -20, "Aviato rant waste", 30, 30⟩],
   [⟨"Accept terms (Safe)", "Safe", 15, 20, -20, "Dilution hit", 0, 0⟩,
    ⟨"Reject offer (Balanced)", "Balanced", -15, 30, -10, "Search longer", 0, 0⟩,
    ⟨"Negotiate (Risky)", "Risky", -25, 50, -20, "Ghosted log off", 0, 0⟩,
    ⟨"Counter YOLO (Aggressive)", "Aggressive", -35, 40, -20, "Karma loss", 40, 45⟩],
   [⟨"Pivot (Safe)", "Safe", 10, 20, -15, "Traction reset", 0, 0⟩,
    ⟨"Persevere (Balanced)", "Balanced", -10, 30, -10, "Burn continues", 0, 0⟩,
    ⟨"Fake metrics (Risky)", "Risky", -20, 50, -30, "Bahn roast crash", 0, 0⟩,
    ⟨"Seek advice (Aggressive)", "Aggressive", -25, 30, -20, "Jian-Yang Octopus confusion", 30, 40⟩],
   [⟨"Down round (Safe)", "Safe", 10, 20, -25, "Equity ego hit", 0, 0⟩,
    ⟨"Bridge loan (Balanced)", "Balanced", -15, 30, -15, "Debt crush", 0, 0⟩,
    ⟨"Cut costs (Risky)", "Risky", -20, 40, -20, "Layoff morale", 0, 0⟩,
    ⟨"Wait it out (Passive)", "Passive", -20, 20, -10, "Stall risk", 0, 0⟩],
   [⟨"Let go (Safe)", "Safe", 5, 20, -20, "Co-founder loss", 0, 0⟩,
    ⟨"Buy out (Balanced)", "Balanced", -20, 30, -10, "Cash drain", 0, 0⟩,
    ⟨"Convince stay (Risky)", "Risky", -15, 40, -20, "Drama explosion", 0, 0⟩,
    ⟨"Ignore (Aggressive)", "Aggressive", -30, 30, -20, "Gilfoyle shrug fail", 30, 20⟩],
   [⟨"Double marketing (Safe)", "Safe", -10, 20, -10, "Traction fade", 0, 0⟩,
    ⟨"Cut hype (Balanced)", "Balanced", -10, 30, -10, "Visibility drop", 0, 0⟩,
    ⟨"New feature rush (Risky)", "Risky", -25, 50, -20, "Bug crash", 0, 0⟩,
    ⟨"Blame market (Aggressive)", "Aggressive", -20, 30, -20, "Karma loss", 30, 30⟩],
   [⟨"Pay more (Safe)", "Safe", -5, 20, -10, "Ongoing cost", 0, 0⟩,
    ⟨"Switch vendor (Balanced)", "Balanced", -15, 30, -15, "Downtime", 0, 0⟩,
    ⟨"Sue vendor (Risky)", "Risky", -30, 50, -20, "Legal drain", 0, 0⟩,
    ⟨"Hack around (Aggressive)", "Aggressive", -25, 40, -20, "Gilfoyle hell", 30, 30⟩],
   [⟨"Wing it (Safe)", "Safe", 5, 20, -15, "Awkward fail", 0, 0⟩,
    ⟨"Overprep (Balanced)", "Balanced", -10, 30, -10, "Burnout", 0, 0⟩,
    ⟨"Cancel pitch (Risky)", "Risky", -20, 40, -20, "Opportunity loss", 0, 0⟩,
    ⟨"Thirst trap post (Aggressive)", "Aggressive", -15, 30, -20, "Bahn troll", 30, 30⟩],
   [⟨"Move banks (Safe)", "Safe", -10, 20, -10, "Fees", 0, 0⟩,
    ⟨"Withdraw all (Balanced)", "Balanced", -15, 30, -15, "Panic tax", 0, 0⟩,
    ⟨"Wait it out (Risky)", "Risky", -25, 50, -20, "Possible loss", 0, 0⟩,
    ⟨"Diversify late (Aggressive)", "Aggressive", -20, 30, -20, "Too slow", 30, 20⟩],
   [⟨"Hotfix quick (Safe)", "Safe", 10, 20, -15, "Traction dip", 0, 0⟩,
    ⟨"Ignore feedback (Balanced)", "Balanced", -10, 30, -10, "Churn rise", 0, 0⟩,
    ⟨"Full rewrite (Risky)", "Risky", -30, 50, -20, "Delay crash", 0, 0⟩,
    ⟨"Blame users (Aggressive)", "Aggressive", -20, 30, -20, "Backlash", 30, 30⟩],
   [⟨"Sue them (Safe)", "Safe", -5, 20, -15, "Legal slow", 0, 0⟩,
    ⟨"Differentiate (Balanced)", "Balanced", -15, 30, -10, "Feature rush", 0, 0⟩,
    ⟨"Copy back (Risky)", "Risky", -25, 50, -20, "Ethics roast", 0, 0⟩,
    ⟨"Partner with them (Aggressive)", "Aggressive", -30, 40, -20, "Betrayal risk", 30, 40⟩]]

/-- One choice row of `GILFOYLE_PACTS` (main.py lines 2233-2334). -/
structure GilfoyleChoice where
  text : String
  equityCost : Nat
  rng : Bool := false
  runwayGain : Int := 0
  runwayGainGood : Int := 0
  runwayGainBad : Int := 0
  tractionGain : Nat := 0
deriving Repr

/-- The four `GILFOYLE_PACTS` choice tables (setup texts are display-only
and omitted). -/
def gilfoylePacts : List (List GilfoyleChoice) :=
  [[{ text := "Blood pact: Trade 15 equity for 25 runway", equityCost := 15, runwayGain := 25 },
    { text := "Soul lease: Trade 10 equity, 50/50 for 35 or 0 runway", equityCost := 10,
      rng := true, runwayGainGood := 35, runwayGainBad := 0 },
    { text := "Decline the pact. Keep your soul.", equityCost := 0, runwayGain := 0,
      tractionGain := 5 }],
   [{ text := "Force push: -12 equity, +20 runway, restore data", equityCost := 12, runwayGain := 20 },
    { text := "Forbidden merge: -8 equity, 60/40 for 30 or -5 runway", equityCost := 8,
      rng := true, runwayGainGood := 30, runwayGainBad := -5 },
    { text := "Do it the right way. No dark arts.", equityCost := 0, runwayGain := 0,
      tractionGain := 8 }],
   [{ text := "Deploy the bots: -10 equity, +20 runway, +15 traction", equityCost := 10,
      runwayGain := 20, tractionGain := 15 },
    { text := "Subtle sabotage: -7 equity, 50/50 for +25 or -8 runway", equityCost := 7,
      rng := true, runwayGainGood := 25, runwayGainBad := -8 },
    { text := "Take the high road. Out-build them.", equityCost := 0, runwayGain := 0,
      tractionGain := 10 }],
   [{ text := "Full ritual: -15 equity, +30 runway", equityCost := 15, runwayGain := 30 },
    { text := "Half ritual: -5 equity, 40/60 for +20 or -10 runway", equityCost := 5,
      rng := true, runwayGainGood := 20, runwayGainBad := -10 },
    { text := "Call the on-call engineer instead", equityCost := 0, runwayGain := -3,
      tractionGain := 5 }]]

/-- `"{quote}"` reject-quote pool of `Game.handle_yc_lottery_choice`
(main.py lines 1833-1839). -/
def ycRejectQuotes : List String :=
  ["Rejected. \u0027Skill issue.\u0027 - Eric Bahn",
   "Rejected. \u0027What does this company even do?\u0027",
   "Rejected. \u0027We\u0027ll pass, keep us updated!\u0027 (never)",
   "Rejected. \u0027Your TAM slide is giving delusion.\u0027",
   "Rejected. \u0027Hot dog. Not hot dog.\u0027 - Jian-Yang"]

/-- Python `f"{n:+d}"` formatting. -/
def fmtSigned (n : Int) : String :=
  if n ≥ 0 then "+" ++ toString n else toString n

/-- Whether the first character list starts with the second. -/
def charsStartWith : List Char → List Char → Bool
  | _, [] => true
  | [], _ :: _ => false
  | c :: cs, p :: ps => c = p && charsStartWith cs ps

/-- Whether the second character list occurs inside the first. -/
def charsContains : List Char → List Char → Bool
  | [], p => p.isEmpty
  | c :: rest, p => charsStartWith (c :: rest) p || charsContains rest p

/-- Python `pat in s` substring membership. -/
def strContains (s pat : String) : Bool :=
  charsContains s.data pat.data

/-- `random.shuffle` of a three-element list, with the permutation chosen
by the draw `k`. -/
def perm3 {α : Type} (k : Nat) : List α → List α
  | [a, b, c] =>
    match k % 6 with
    | 0 => [a, b, c]
    | 1 => [a, c, b]
    | 2 => [b, a, c]
    | 3 => [b, c, a]
    | 4 => [c, a, b]
    | _ => [c, b, a]
  | l => l

/-- The RNG draws one call of `Game.update` may consume (one tick).
`randint(a, b)` draws are modelled as `a + d % (b - a + 1)` and
`random.choice(pool)` as `pool[d % pool.length]`. -/
structure Draws where
  quoteRoll : ℚ := 1
  quoteIdx : Nat := 0
  eventR : Nat := 0
  nextEventAtD : Nat := 0
  breakdownIdx : Nat := 0
  sicknessVictimD : Nat := 0
  decisionIdx : Nat := 0
  dilemmaIdx : Nat := 0
  windfallIdx : Nat := 0
  tweetIdx : Nat := 0
  tweetDecoyD : Nat := 0
  tweetShuffleD : Nat := 0
  hotdogIdx : Nat := 0
  gilfoyleIdx : Nat := 0
  erlichIdx : Nat := 0
  bonusTypeIdx : Nat := 0
  bonusTimerD : Nat := 0
  arcadeTimerD : Nat := 0
  deathQuoteIdx : Nat := 0
deriving Repr

/-- `Game.trigger_river_event` (main.py lines 911-927); the prompt text is
display-only. -/
def triggerRiverEvent (s : GState) : GState :=
  { s with current_event := some .river, event_options := riverOptions }

/-- `Game.trigger_breakdown_event` (main.py lines 929-947). -/
def triggerBreakdownEvent (s : GState) (d : Draws) : GState :=
  let b := breakdowns.getD (d.breakdownIdx % breakdowns.length) ("", [])
  { s with current_event := some .breakdown, event_options := b.2 }

/-- `Game.trigger_decision_event` (main.py lines 976-1002). -/
def triggerDecisionEvent (s : GState) (d : Draws) : GState :=
  let dec := decisions.getD (d.decisionIdx % decisions.length) ("", [])
  { s with current_event := some .decision, event_options := dec.2 }

/-- `Game.trigger_sickness_event` (main.py lines 949-974): pick a victim
among the living co-founders, or fall back to a decision event when none
are left. -/
def triggerSicknessEvent (s : GState) (d : Draws) : GState :=
  let alive := aliveIndices s.co_founders
  if alive.isEmpty then triggerDecisionEvent s d
  else
    let victim := alive.getD (d.sicknessVictimD % alive.length) 0
    { s with current_event := some .sickness, event_victim := some victim,
             event_options := sicknessOptions }

/-- `Game.trigger_dilemma_event` (main.py lines 1268-1278). -/
def triggerDilemmaEvent (s : GState) (d : Draws) : GState :=
  let i := d.dilemmaIdx % svDilemmas.length
  let choices := svDilemmas.getD i []
  { s with current_event := some .dilemma, event_dilemma := some i,
           event_options :=
             choices.mapIdx fun j c =>
               toString (j + 1) ++ ": " ++ c.text ++ " [" ++ c.rating ++ "]" }

/-- `Game.trigger_yc_lottery` (main.py lines 1806-1814). -/
def triggerYcLottery (s : GState) : GState :=
  { s with current_event := some .ycLottery, event_options := ycOptions }

/-- `Game.trigger_windfall_event` (main.py lines 1004-1023): applies the
drawn windfall payoffs immediately and leaves no active event. -/
def triggerWindfallEvent (s : GState) (d : Draws) : GState :=
  let w := windfalls.getD (d.windfallIdx % windfalls.length) ("", 0, 0, 0)
  { s with current_event := none,
           runway := qmin 100 (s.runway + (w.2.1 : ℚ)),
           equity := qmin 100 (s.equity + (w.2.2.1 : ℚ)),
           traction := s.traction + (w.2.2.2 : ℚ),
           event_result := some ("🎉 " ++ w.1),
           event_result_timer := 180 }

/-- `Game.trigger_tweet_event` (main.py lines 1871-1901); on touch devices
the menu is three shuffled candidate tweets, on desktop a typing prompt. -/
def triggerTweetEvent (s : GState) (d : Draws) : GState :=
  let idx := d.tweetIdx % tweetPrompts.length
  let pair := tweetPrompts.getD idx ("", "")
  let base := { s with current_event := some EventKind.tweet, tweet_target := some idx,
                       tweet_input := "", tweet_timer := 300, tweet_done := false }
  if s.is_touch then
    let others := tweetPrompts.filter fun p => p.1 ≠ pair.1
    let decoy := if others.isEmpty then "lorem ipsum startup"
                 else (others.getD (d.tweetDecoyD % others.length) ("", "")).2
    let opts := perm3 d.tweetShuffleD [pair.1, pair.2, decoy]
    { base with tweet_mobile := true, tweet_options := opts,
                event_options := opts.mapIdx fun i o =>
                  toString (i + 1) ++ ": \"" ++ o ++ "\"" }
  else
    { base with tweet_mobile := false, event_options := tweetDesktopOptions }

/-- `Game.trigger_erlich_event` (main.py lines 2082-2093); the rant pool
`ERLICH_RANTS` (6 entries) is display-only, its index is carried. -/
def triggerErlichEvent (s : GState) (d : Draws) : GState :=
  { s with current_event := some .erlich, erlich_rant := some (d.erlichIdx % 6),
           event_options := erlichOptions }

/-- `Game.trigger_hotdog_event` (main.py lines 2172-2187). -/
def triggerHotdogEvent (s : GState) (d : Draws) : GState :=
  { s with current_event := some .hotdog,
           hotdog_item := some (d.hotdogIdx % hotdogItems.length),
           event_options := hotdogOptions }

/-- `Game.trigger_gilfoyle_event` (main.py lines 2336-2345). -/
def triggerGilfoyleEvent (s : GState) (d : Draws) : GState :=
  let idx := d.gilfoyleIdx % gilfoylePacts.length
  let choices := gilfoylePacts.getD idx []
  { s with current_event := some .gilfoyle, gilfoyle_pact := some idx,
           event_options := choices.mapIdx fun j c => toString (j + 1) ++ ": " ++ c.text }

/-- `Game.trigger_random_event` (main.py lines 845-909): pick the weight
table by segment, draw `r` uniformly in `[1, total]`, select by the
roulette walk and invoke the chosen trigger. -/
def triggerRandomEvent (s : GState) (d : Draws) : GState :=
  let events := if trailSegment s.distance = Segment.late then eventsLate else eventsEarlyMid
  let r := d.eventR % totalWeight events + 1
  match selectEvent events r with
  | .river => triggerRiverEvent s
  | .breakdown => triggerBreakdownEvent s d
  | .sickness => triggerSicknessEvent s d
  | .decision => triggerDecisionEvent s d
  | .dilemma => triggerDilemmaEvent s d
  | .ycLottery => triggerYcLottery s
  | .tweet => triggerTweetEvent s d
  | .windfall => triggerWindfallEvent s d
  | .erlich => triggerErlichEvent s d
  | .hotdog => triggerHotdogEvent s d
  | .gilfoyle => triggerGilfoyleEvent s d

/-- `Game.trigger_remedy` (main.py lines 1477-1482): arm the recovery
interlude with its choice menu pending (`remedy_timer = 0`). -/
def triggerRemedy (s : GState) : GState :=
  { s with remedy_active := true, remedy_timer := 0 }

/-- `Game.start_hunt` (main.py lines 587-605) restricted to the trail
core: enter state 3; the hunt mini-game internals are outside the
modelled core. -/
def startHunt (s : GState) : GState :=
  { s with state := 3 }

/-- `Game.start_final_bonus` (main.py lines 1324-1347) restricted to the
trail core fields. -/
def startFinalBonus (s : GState) (d : Draws) : GState :=
  { s with state := 2,
           bonus_type := some ([BonusKind.galaga, .mario, .frogger].getD (d.bonusTypeIdx % 3) .galaga),
           bonus_timer := ((60 + d.bonusTimerD % 31) * 60 : Nat),
           bonus_score := 0 }

/-- `Game.start_qa_phase` (main.py lines 2722-2750) restricted to the
trail core: enter state 10; the Q&A phase internals are outside the
modelled core. -/
def startQaPhase (s : GState) : GState :=
  { s with state := 10 }

/-- The shared else-branch of `Game.start_cycle_arcade` (main.py lines
2793-2807): enter state 11 with the given arcade as `bonus_type`. -/
def cycleArcadeStart (s : GState) (d : Draws) (k : BonusKind) : GState :=
  { s with state := 11, bonus_type := some k,
           bonus_timer := ((45 + d.arcadeTimerD % 16) * 60 : Nat),
           bonus_score := 0, cycle_arcade_active := true }

/-- `Game.start_cycle_arcade` (main.py lines 2780-2808) restricted to the
trail core fields. -/
def startCycleArcade (s : GState) (d : Draws) : GState :=
  let arcadeType := arcadeRotation.getD (s.arcade_rotation_index % arcadeRotation.length) .hunt
  let s := { s with arcade_rotation_index := s.arcade_rotation_index + 1 }
  match arcadeType with
  | .hunt => startHunt { s with cycle_arcade_active := true }
  | .boss => { s with state := 11, bonus_type := some .boss, cycle_arcade_active := true }
  | .galaga => cycleArcadeStart s d .galaga
  | .mario => cycleArcadeStart s d .mario
  | .frogger => cycleArcadeStart s d .frogger

/-- `Game.end_trail_phase` (main.py lines 2768-2778). -/
def endTrailPhase (s : GState) (d : Draws) : GState :=
  let s := { s with trail_round_active := false, round_in_cycle := s.round_in_cycle + 1 }
  if s.distance ≥ 2000 then startFinalBonus s d
  else if s.round_in_cycle ≥ 4 then startCycleArcade s d
  else startQaPhase s

/-- The terminal-loss ladder of `Game.update` (main.py lines 3117-3141):
runway, then equity, then team, each drawing a quote from its pool. -/
def lossCheck (s : GState) (d : Draws) : GState :=
  if s.runway ≤ 0 then
    { s with state := 6, death_quote := some (.runwayPool, d.deathQuoteIdx % 3) }
  else if s.equity ≤ 0 then
    { s with state := 6, death_quote := some (.equityPool, d.deathQuoteIdx % 2) }
  else if aliveCount s.co_founders = 0 then
    { s with state := 6, death_quote := some (.teamPool, 0) }
  else s

/-- `Game._resolve_tweet(timed_out=True)` (main.py lines 1911-1920 and
1950-1952), the only resolution path reachable from `Game.update`. -/
def resolveTweetTimeout (s : GState) : GState :=
  let mangled := (tweetPrompts.getD (s.tweet_target.getD 0) ("", "")).2
  { s with tweet_done := true,
           runway := qmax 0 (s.runway - 8),
           event_result := some ("TIME\u0027S UP! Auto-correct: \"" ++ mangled ++
             "\"\nVCs ghosted. -8 runway\nBahn: Skill issue."),
           event_result_timer := 240,
           current_event := none }

/-- `Game.update_tweet_event` (main.py lines 1903-1909). -/
def updateTweetEvent (s : GState) : GState :=
  if s.current_event ≠ some EventKind.tweet ∨ s.tweet_done then s
  else
    let s := { s with tweet_timer := s.tweet_timer - 1 }
    if s.tweet_timer ≤ 0 ∧ ¬ s.tweet_done then resolveTweetTimeout s else s

/-- The per-tick stat clamp at the top of `Game.update`
(main.py lines 3023-3026). -/
def clampStats (s : GState) : GState :=
  { s with runway := qmax 0 (qmin 100 s.runway),
           equity := qmax 0 (qmin 100 s.equity),
           traction := qmax 0 s.traction }

/-- The `state == 1` trail branch of `Game.update`
(main.py lines 3032-3141). -/
def trailTick (s : GState) (d : Draws) : GState :=
  if s.paused then
    let s := { s with pause_timer := s.pause_timer - 1 }
    if s.pause_timer ≤ 0 then { s with paused := false } else s
  else if s.remedy_active ∧ s.remedy_timer > 0 then
    let s := { s with remedy_timer := s.remedy_timer - 1,
                      equity := qmin 100 (s.equity + 0.3) }
    if s.remedy_timer ≤ 0 then { s with remedy_active := false, selected_remedy := "" } else s
  else if s.event_result_timer > 0 then
    let s := { s with event_result_timer := s.event_result_timer - 1 }
    if s.event_result_timer ≤ 0 then { s with event_result := none } else s
  else if s.current_event.isSome then
    if s.current_event = some EventKind.tweet then updateTweetEvent s else s
  else if s.remedy_active ∧ s.remedy_timer = 0 then s
  else
    let s := { s with distance := s.distance + paceSpeed s.pace,
                      runway := s.runway - paceDrain s.pace }
    let s := if d.quoteRoll < 0.002 then
               { s with current_quote := some d.quoteIdx, quote_timer := 150 }
             else s
    let s := if s.quote_timer > 0 then
               let s := { s with quote_timer := s.quote_timer - 1 }
               if s.quote_timer ≤ 0 then { s with current_quote := none } else s
             else s
    if s.trail_round_active then
      let s := { s with event_timer := s.event_timer + 1 }
      let s := if s.event_timer ≥ s.next_event_at then
                 let s := triggerRandomEvent s d
                 { s with event_timer := 0, next_event_at := 800 + d.nextEventAtD % 701 }
               else s
      let s := if s.equity ≤ remedyThreshold ∧ ¬ s.remedy_active then triggerRemedy s else s
      let s := { s with trail_round_timer := s.trail_round_timer - 1 }
      if s.trail_round_timer ≤ 0 ∧ s.current_event = none ∧ ¬ s.remedy_active ∧
         s.event_result = none ∧ s.event_result_timer ≤ 0 then
        endTrailPhase s d
      else
        lossCheck s d
    else
      let dsh := s.distance - s.hunt_distance_trigger
      let lowTraction := s.traction < 20 ∧ s.distance > 200
      if dsh ≥ (s.hunt_next_at : ℚ) ∨ (lowTraction ∧ dsh > 500) then
        startHunt s
      else
        let s := { s with event_timer := s.event_timer + 1 }
        let s := if s.event_timer ≥ s.next_event_at then
                   let s := triggerRandomEvent s d
                   { s with event_timer := 0, next_event_at := 800 + d.nextEventAtD % 701 }
                 else s
        let s := if s.equity ≤ remedyThreshold ∧ ¬ s.remedy_active then triggerRemedy s else s
        if s.distance ≥ 2000 then startFinalBonus s d
        else lossCheck s d

/-- `Game.update` (main.py lines 3022-3141): the per-tick clamp followed
by the `state == 1` trail branch.  The mini-game branches for states
10/3/11/2 (main.py lines 3143-3176) are outside the modelled core; for
all other states the source update changes nothing after the clamp. -/
def gameUpdate (s0 : GState) (d : Draws) : GState :=
  let s := clampStats s0
  if s.state = 1 then trailTick s d else s

/-- The RNG draws `Game.handle_river_choice` may consume. -/
structure RiverDraws where
  roll : ℚ := 1
  eqLossD : Nat := 0
  rwLossD : Nat := 0
  deathRoll : ℚ := 1
  victimD : Nat := 0
  reasonD : Nat := 0
deriving Repr

/-- `Game.handle_river_choice` (main.py lines 1029-1073). -/
def handleRiverChoice (s : GState) (choice : Nat) (rd : RiverDraws) : GState :=
  let failChance := riverEffectiveFail choice s.warm_intro s.elite_college
  let failed := rd.roll < failChance
  let s1 :=
    if choice = 4 then
      { s with runway := s.runway - 15,
               event_result := some "💰 Paid for ferry. Safe crossing! -15 runway",
               traction := s.traction + 5 }
    else if failed then
      let el : Nat := 15 + rd.eqLossD % 16
      let rl : Nat := 5 + rd.rwLossD % 11
      let s := { s with equity := s.equity - (el : ℚ), runway := s.runway - (rl : ℚ),
                        event_result := some ("💀 DISASTER! Lost " ++ toString el ++
                          " equity, " ++ toString rl ++ " runway!") }
      if rd.deathRoll < riverDeathChance (trailSegment s.distance) then
        let alive := aliveIndices s.co_founders
        if alive.isEmpty then s
        else
          let v := alive.getD (rd.victimD % alive.length) 0
          let nm := (s.co_founders.getD v ⟨"", false⟩).name
          let reason := deathReasons.getD (rd.reasonD % deathReasons.length) ""
          { s with co_founders := killCoFounder s.co_founders v,
                   event_result := s.event_result.map
                     (· ++ "\n💀 " ++ nm ++ " " ++ reason ++ "!") }
      else s
    else
      let s := { s with traction := s.traction + 10,
                        event_result := some "🎉 Crossed successfully! +10 traction" }
      if choice = 3 then
        { s with runway := s.runway - 5,
                 event_result := s.event_result.map (· ++ " (-5 runway for waiting)") }
      else s
  { s1 with event_result_timer := 240, current_event := none }

/-- `Game.handle_breakdown_choice` (main.py lines 1075-1090): choice 1 is
the safe fix; every other choice value takes the 35%-risk branch. -/
def handleBreakdownChoice (s : GState) (choice : Nat) (roll : ℚ) (lossD : Nat) : GState :=
  let s1 :=
    if choice = 1 then
      { s with runway := s.runway - 20,
               event_result := some "Fixed properly. -20 runway, but stable!" }
    else if roll < 0.35 then
      let loss : Nat := 15 + lossD % 11
      { s with equity := s.equity - (loss : ℚ),
               event_result := some ("Quick fix failed! -" ++ toString loss ++ " equity") }
    else
      { s with event_result := some "Quick fix worked! Shipped it.",
               traction := s.traction + 5 }
  { s1 with event_result_timer := 180, current_event := none }

/-- `Game.handle_sickness_choice` (main.py lines 1092-1118); choices other
than 1 and 2 take the team-retreat branch. -/
def handleSicknessChoice (s : GState) (choice : Nat) (roll : ℚ) (reasonD : Nat) : GState :=
  let vn := match s.event_victim with
            | some v => (s.co_founders.getD v ⟨"Team", false⟩).name
            | none => "Team"
  let s1 :=
    if choice = 1 then
      { s with runway := s.runway - 25,
               event_result := some (vn ++ " recovered! -25 runway") }
    else if choice = 2 then
      if roll < 0.30 then
        match s.event_victim with
        | some v =>
          if ((s.co_founders.getD v ⟨"", false⟩).alive) then
            let reason := deathReasons.getD (reasonD % deathReasons.length) ""
            { s with co_founders := killCoFounder s.co_founders v,
                     event_result := some ("💀 " ++ vn ++ " " ++ reason ++ "!") }
          else
            { s with event_result := some "Team morale dropped. -15 equity",
                     equity := s.equity - 15 }
        | none =>
          { s with event_result := some "Team morale dropped. -15 equity",
                   equity := s.equity - 15 }
      else
        { s with event_result := some "Pushed through! Hustle mentality.",
                 traction := s.traction + 5 }
    else
      { s with runway := s.runway - 15,
               equity := qmin 100 (s.equity + 10),
               event_result := some "Team retreat helped! -15 runway, +10 equity" }
  { s1 with event_result_timer := 180, current_event := none }

/-- A `"+N runway" in opt` line of `Game.handle_decision_choice`. -/
def scanRunwayPlus (opt pat : String) (amt : ℚ) (s : GState) : GState :=
  if strContains opt pat then { s with runway := qmin 100 (s.runway + amt) } else s

/-- A `"-N runway" in opt` line of `Game.handle_decision_choice`
(unclamped subtraction). -/
def scanRunwayMinus (opt pat : String) (amt : ℚ) (s : GState) : GState :=
  if strContains opt pat then { s with runway := s.runway - amt } else s

/-- A `"+N equity" in opt` line of `Game.handle_decision_choice`. -/
def scanEquityPlus (opt pat : String) (amt : ℚ) (s : GState) : GState :=
  if strContains opt pat then { s with equity := qmin 100 (s.equity + amt) } else s

/-- A `"-N equity" in opt` line of `Game.handle_decision_choice`
(unclamped subtraction). -/
def scanEquityMinus (opt pat : String) (amt : ℚ) (s : GState) : GState :=
  if strContains opt pat then { s with equity := s.equity - amt } else s

/-- A `"+N traction" in opt` line of `Game.handle_decision_choice`. -/
def scanTractionPlus (opt pat : String) (amt : ℚ) (s : GState) : GState :=
  if strContains opt pat then { s with traction := s.traction + amt } else s

/-- `Game.handle_decision_choice` (main.py lines 1120-1151): the chosen
option label is scanned for stat-delta substrings, one scan per source
line in source order; an out-of-range choice yields the empty label and
so no stat change, but the event is still resolved. -/
def handleDecisionChoice (s : GState) (choice : Nat) : GState :=
  let opt := if choice ≤ s.event_options.length then s.event_options.getD (choice - 1) "" else ""
  let s := scanRunwayPlus opt "+30 runway" 30 s
  let s := scanRunwayPlus opt "+25 runway" 25 s
  let s := scanRunwayPlus opt "+20 runway" 20 s
  let s := scanRunwayPlus opt "+15 runway" 15 s
  let s := scanRunwayPlus opt "+10 runway" 10 s
  let s := scanRunwayMinus opt "-30 runway" 30 s
  let s := scanRunwayMinus opt "-25 runway" 25 s
  let s := scanRunwayMinus opt "-20 runway" 20 s
  let s := scanRunwayMinus opt "-15 runway" 15 s
  let s := scanRunwayMinus opt "-10 runway" 10 s
  let s := scanEquityPlus opt "+20 equity" 20 s
  let s := scanEquityPlus opt "+15 equity" 15 s
  let s := scanEquityPlus opt "+10 equity" 10 s
  let s := scanEquityPlus opt "+5 equity" 5 s
  let s := scanEquityMinus opt "-20 equity" 20 s
  let s := scanEquityMinus opt "-15 equity" 15 s
  let s := scanEquityMinus opt "-10 equity" 10 s
  let s := scanTractionPlus opt "+25 traction" 25 s
  let s := scanTractionPlus opt "+20 traction" 20 s
  let s := scanTractionPlus opt "+15 traction" 15 s
  let s := scanTractionPlus opt "+10 traction" 10 s
  let s := scanTractionPlus opt "+5 traction" 5 s
  { s with event_result := some ("Decision made: " ++ opt.take 50 ++ "..."),
           event_result_timer := 150, current_event := none }

/-- `Game.handle_remedy` (main.py lines 1484-1509): the five remedy
payoffs; the interlude keeps `remedy_active` and arms `remedy_timer`. -/
def handleRemedy (s : GState) (choice : Nat) (boostD : Nat) : GState :=
  let remedies := ["Pleasure", "Tears", "Contemplating Truth", "Friends", "Bath & Nap"]
  let s := { s with selected_remedy := remedies.getD (choice - 1) "" }
  if choice = 1 then
    { s with equity := qmin 100 (s.equity + 20), traction := qmax 0 (s.traction - 5),
             remedy_timer := 180 }
  else if choice = 2 then
    { s with equity := qmin 100 (s.equity + 15), runway := qmax 0 (s.runway - 10),
             remedy_timer := 240 }
  else if choice = 3 then
    { s with equity := qmin 100 (s.equity + 25), traction := s.traction + 5,
             remedy_timer := 360 }
  else if choice = 4 then
    let boost : Nat := 10 + boostD % 21
    { s with equity := qmin 100 (s.equity + (boost : ℚ)), remedy_timer := 120 }
  else if choice = 5 then
    { s with equity := qmin 100 (s.equity + 20), runway := qmin 100 (s.runway + 15),
             remedy_timer := 240 }
  else s

/-- `Game.handle_yc_lottery_choice` (main.py lines 1816-1850). -/
def handleYcLotteryChoice (s : GState) (choice : Nat) (rollD rejectD : Nat) : GState :=
  let s1 :=
    if choice = 1 then
      if 1 + rollD % 100 ≤ 1 then
        { s with runway := 100, equity := qmin 100 (s.equity + 20),
                 traction := s.traction + 50,
                 event_result := some ("YC ACCEPTED! Full runway refill!\n" ++
                   "+20 equity, +50 traction!\n" ++
                   "Paul Graham: 'Make something people want.'") }
      else
        { s with runway := qmax 0 (s.runway - 10),
                 event_result := some (ycRejectQuotes.getD (rejectD % ycRejectQuotes.length) ""
                   ++ "\n-10 runway") }
    else
      { s with runway := qmax 0 (s.runway - 5), traction := s.traction + 10,
               event_result := some "Smart. Kept building. -5 runway, +10 traction." }
  { s1 with event_result_timer := 240, current_event := none }

/-- `Game.handle_erlich_choice` (main.py lines 2095-2146); the rant
exit-line suffixes come from the display-only pool and are omitted from
the carried result strings.  Choices other than 1 and 2 take the
quote-tweet gamble. -/
def handleErlichChoice (s : GState) (choice : Nat) (roll : ℚ) : GState :=
  if s.erlich_rant = none then s
  else
    let s1 :=
      if choice = 1 then
        { s with traction := s.traction + 8, runway := qmax 0 (s.runway - 5),
                 event_result := some ("You sat through the whole thing.\n" ++
                   "+8 traction (hype energy), -5 runway (time is money)") }
      else if choice = 2 then
        { s with equity := qmax 0 (s.equity - 3), runway := qmin 100 (s.runway + 3),
                 event_result := some ("You cut him off mid-sentence.\n" ++
                   "Erlich: \"Did you just... interrupt ME?\"\n" ++
                   "-3 equity (burned bridge), +3 runway (time saved)\n" ++
                   "He slams the door. Vape cloud lingers for hours.") }
      else if roll < 0.5 then
        { s with runway := qmin 100 (s.runway + 15), traction := s.traction + 10,
                 event_result := some ("VIRAL THREAD! Everyone loves dunking on Erlich.\n" ++
                   "+15 runway, +10 traction\n" ++
                   "Erlich: \"No such thing as bad press, baby!\"") }
      else
        { s with runway := qmax 0 (s.runway - 10), equity := qmax 0 (s.equity - 5),
                 event_result := some ("RATIO'D. Erlich's reply went mega-viral instead.\n" ++
                   "-10 runway, -5 equity\n" ++
                   "Erlich: \"You came at the king. You missed.\"") }
    { s1 with event_result_timer := 240, current_event := none }

/-- `Game.handle_hotdog_choice` (main.py lines 2189-2227); the drawn
fail-line suffix comes from the display-only pool and is omitted from the
carried result string. -/
def handleHotdogChoice (s : GState) (choice : Nat) (gainD : Nat) : GState :=
  match s.hotdog_item with
  | none => s
  | some idx =>
    let item := hotdogItems.getD idx ("", false, "")
    let correct := (choice = 1 ∧ item.2.1) ∨ (choice = 2 ∧ ¬ item.2.1)
    let s1 :=
      if correct then
        let gain : Nat := 8 + gainD % 8
        { s with runway := qmin 100 (s.runway + (gain : ℚ)), traction := s.traction + 5,
                 event_result := some ("Jian-Yang: \"" ++ item.2.2 ++ "\"\nCORRECT! +" ++
                   toString gain ++ " runway, +5 traction\n" ++
                   "Jian-Yang: \"See? App work. Very good.\"") }
      else
        { s with traction := qmax 0 (s.traction - 10), runway := qmax 0 (s.runway - 5),
                 event_result := some ("Jian-Yang: \"" ++ item.2.2 ++
                   "\"\nWRONG! -5 runway, -10 traction") }
    { s1 with event_result_timer := 240, current_event := none }

/-- `Game.handle_gilfoyle_choice` (main.py lines 2347-2397); an absent
pact or out-of-range choice is ignored.  The `odds` local is 0.5 in both
arms of the source conditional.  The Gilfoyle reply lines come from the
display-only columns and are omitted from the carried result string. -/
def handleGilfoyleChoice (s : GState) (choice : Nat) (roll : ℚ) : GState :=
  match s.gilfoyle_pact with
  | none => s
  | some pIdx =>
    let choices := gilfoylePacts.getD pIdx []
    if choice < 1 ∨ choice > choices.length then s
    else
      let c := choices.getD (choice - 1) ⟨"", 0, false, 0, 0, 0, 0⟩
      let p1 : List String :=
        if c.equityCost > 0 then ["-" ++ toString c.equityCost ++ " equity"] else []
      let s := if c.equityCost > 0 then
                 { s with equity := qmax 0 (s.equity - (c.equityCost : ℚ)) }
               else s
      let p2 : List String :=
        if c.tractionGain > 0 then ["+" ++ toString c.tractionGain ++ " traction"] else []
      let s := if c.tractionGain > 0 then
                 { s with traction := s.traction + (c.tractionGain : ℚ) }
               else s
      let (s, p3) :=
        if c.rng then
          if roll < 0.5 then
            ({ s with runway := qmin 100 (qmax 0 (s.runway + (c.runwayGainGood : ℚ))) },
             ["+" ++ toString c.runwayGainGood ++ " runway (LUCKY!)"])
          else
            ({ s with runway := qmax 0 (s.runway + (c.runwayGainBad : ℚ)) },
             if c.runwayGainBad ≠ 0 then [fmtSigned c.runwayGainBad ++ " runway (CURSED)"]
             else ["0 runway gained. The void stares back."])
        else
          ({ s with runway := qmin 100 (qmax 0 (s.runway + (c.runwayGain : ℚ))) },
           if c.runwayGain ≠ 0 then [fmtSigned c.runwayGain ++ " runway"] else [])
      { s with event_result := some (String.intercalate "\n" (p1 ++ p2 ++ p3)),
               event_result_timer := 300, current_event := none }

/-- The RNG draws `Game.handle_dilemma_choice` may consume. -/
structure DilemmaDraws where
  worseD : Nat := 0
  goodD : Nat := 0
  deathRoll : ℚ := 1
  victimD : Nat := 0
  reasonD : Nat := 0
deriving Repr

/-- `Game.handle_dilemma_choice` (main.py lines 1280-1318); an absent
dilemma or out-of-range choice is ignored. -/
def handleDilemmaChoice (s : GState) (choice : Nat) (dd : DilemmaDraws) : GState :=
  match s.event_dilemma with
  | none => s
  | some i =>
    let choices := svDilemmas.getD i []
    if choice < 1 ∨ choice > choices.length then s
    else
      let c := choices.getD (choice - 1) ⟨"", "", 0, 0, 0, "", 0, 0⟩
      let s := { s with runway := qmax 0 (qmin 100 (s.runway + (c.baseRunway : ℚ))) }
      let part1 := c.text ++ ": " ++ fmtSigned c.baseRunway ++ " runway"
      let (s, parts) :=
        if 1 + dd.worseD % 100 ≤ c.worseChance then
          let s := { s with runway := qmax 0 (s.runway + (c.worseExtra : ℚ)) }
          let p := "BAD LUCK: " ++ c.worseEffect ++ " (" ++ fmtSigned c.worseExtra ++ ")"
          if (c.rating = "Risky" ∨ c.rating = "Aggressive") ∧ dd.deathRoll < 0.2 then
            let alive := aliveIndices s.co_founders
            if alive.isEmpty then (s, [part1, p])
            else
              let v := alive.getD (dd.victimD % alive.length) 0
              let nm := (s.co_founders.getD v ⟨"", false⟩).name
              let reason := deathReasons.getD (dd.reasonD % deathReasons.length) ""
              ({ s with co_founders := killCoFounder s.co_founders v },
               [part1, p, nm ++ " " ++ reason ++ "!"])
          else (s, [part1, p])
        else
          if 1 + dd.goodD % 100 ≤ c.goodChance then
            ({ s with runway := qmin 100 (s.runway + (c.goodExtra : ℚ)) },
             [part1, "JACKPOT! +" ++ toString c.goodExtra ++ " bonus runway!"])
          else (s, [part1])
      { s with event_result := some (String.intercalate "\n" parts),
               event_result_timer := 240, current_event := none }

/-- All RNG draws an event/remedy key press may consume. -/
structure ResolveDraws where
  river : RiverDraws := {}
  breakdownRoll : ℚ := 1
  breakdownLossD : Nat := 0
  sicknessRoll : ℚ := 1
  sicknessReasonD : Nat := 0
  dilemma : DilemmaDraws := {}
  ycRollD : Nat := 0
  ycRejectD : Nat := 0
  erlichRoll : ℚ := 1
  hotdogGainD : Nat := 0
  gilfoyleRoll : ℚ := 1
  remedyBoostD : Nat := 0
deriving Repr

/-- The event-or-remedy key dispatch in state 1 (main.py lines
3591-3621): while an event is active only keys 1-4 are dispatched, to the
handler of the active kind; otherwise, with the remedy menu pending, only
keys 1-5 reach `handle_remedy`.  The tweet typing path
(`handle_tweet_keypress`) is character input outside the modelled core,
and a windfall is never an active event. -/
def eventOrRemedyKey (s : GState) (key : Nat) (rd : ResolveDraws) : GState :=
  match s.current_event with
  | some k =>
    if key = 1 ∨ key = 2 ∨ key = 3 ∨ key = 4 then
      match k with
      | .river => handleRiverChoice s key rd.river
      | .breakdown => handleBreakdownChoice s key rd.breakdownRoll rd.breakdownLossD
      | .sickness => handleSicknessChoice s key rd.sicknessRoll rd.sicknessReasonD
      | .decision => handleDecisionChoice s key
      | .dilemma => handleDilemmaChoice s key rd.dilemma
      | .ycLottery => handleYcLotteryChoice s key rd.ycRollD rd.ycRejectD
      | .erlich => handleErlichChoice s key rd.erlichRoll
      | .hotdog => handleHotdogChoice s key rd.hotdogGainD
      | .gilfoyle => handleGilfoyleChoice s key rd.gilfoyleRoll
      | .tweet => s
      | .windfall => s
    else s
  | none =>
    if s.remedy_active ∧ s.remedy_timer = 0 then
      if key = 1 ∨ key = 2 ∨ key = 3 ∨ key = 4 ∨ key = 5 then
        handleRemedy s key rd.remedyBoostD
      else s
    else s

/-- Which overlay `Game.draw_trail` presents (main.py lines 3330-3343):
the event overlay wins over the remedy overlay, which wins over the
result box. -/
inductive Overlay where
  | eventOverlay
  | tweetOverlay
  | remedyOverlay
  | resultBox
  | noneShown
deriving DecidableEq, Repr

/-- The overlay dispatch of `Game.draw_trail` (main.py lines 3330-3343). -/
def shownOverlay (s : GState) : Overlay :=
  if s.current_event.isSome then
    if s.current_event = some EventKind.tweet then .tweetOverlay else .eventOverlay
  else if s.remedy_active then .remedyOverlay
  else if s.event_result.isSome then .resultBox
  else .noneShown

/-- `n` ticks of `Game.update` with the same per-tick draw record. -/
def tickN (s : GState) (d : Draws) : Nat → GState
  | 0 => s
  | n + 1 => gameUpdate (tickN s d n) d

/-- The founder-profile fields of `Game` touched by `Game.save_profile`
and `Game.load_profile` (main.py lines 1515-1562), with the `__init__`
defaults. -/
structure Profile where
  company_name : String := ""
  problem : String := ""
  solution : String := ""
  warm_intro : Bool := false
  elite_college : Bool := false
  high_score : Int := 0
  games_played : Int := 0
  has_saved_profile : Bool := false
deriving DecidableEq, Repr

/-- The `save_data` dict written to `hustle_save.json` (main.py lines
1516-1524), before the `_hash` field is added. -/
structure SaveData where
  company_name : String
  problem : String
  solution : String
  warm_intro : Bool
  elite_college : Bool
  high_score : Int
  games_played : Int
deriving DecidableEq, Repr

/-- A JSON string literal (escaping of special characters inside the
value is not modelled). -/
def jsonStr (s : String) : String := "\"" ++ s ++ "\""

/-- A JSON boolean literal. -/
def jsonBool (b : Bool) : String := if b then "true" else "false"

/-- `json.dumps(save_data, sort_keys=True)` over the seven data fields
(keys in sorted order, `", "` and `": "` separators). -/
def serializeSaveData (dt : SaveData) : String :=
  "\x7b\"company_name\": " ++ jsonStr dt.company_name ++
  ", \"elite_college\": " ++ jsonBool dt.elite_college ++
  ", \"games_played\": " ++ toString dt.games_played ++
  ", \"high_score\": " ++ toString dt.high_score ++
  ", \"problem\": " ++ jsonStr dt.problem ++
  ", \"solution\": " ++ jsonStr dt.solution ++
  ", \"warm_intro\": " ++ jsonBool dt.warm_intro ++ "\x7d"

/-- `Game.save_profile` (main.py lines 1515-1531): write the profile
fields with `games_played + 1` and attach the keyed digest of the
sorted-key JSON of the data fields.  The truncated HMAC-SHA256 digest
`_save_hash` (main.py lines 39-41) is cryptographic and abstracted as the
`hashFn` parameter. -/
def saveProfile (hashFn : String → String) (p : Profile) : SaveData × Option String :=
  let dt : SaveData :=
    ⟨p.company_name, p.problem, p.solution, p.warm_intro, p.elite_college,
     p.high_score, p.games_played + 1⟩
  (dt, some (hashFn (serializeSaveData dt)))

/-- The field-loading tail of `Game.load_profile` (main.py lines
1548-1556): type-cast with truncation limits, then derive
`has_saved_profile` from the truthiness of the truncated company name. -/
def loadFields (self : Profile) (dt : SaveData) : Profile :=
  { self with company_name := dt.company_name.take 50,
              problem := dt.problem.take 100,
              solution := dt.solution.take 100,
              warm_intro := dt.warm_intro,
              elite_college := dt.elite_college,
              games_played := dt.games_played,
              high_score := dt.high_score,
              has_saved_profile := dt.company_name.take 50 ≠ "" }

/-- `Game.load_profile` (main.py lines 1533-1562).  `none` models a
missing save file as well as the `json.loads`/cast failures caught by the
`except` clause; both reset `has_saved_profile` and `games_played` and
never raise.  A present `_hash` that does not match the recomputed digest
of the data region resets the same way. -/
def loadProfile (hashFn : String → String) (self : Profile)
    (file : Option (SaveData × Option String)) : Profile :=
  match file with
  | none => { self with has_saved_profile := false, games_played := 0 }
  | some (dt, storedHash) =>
    match storedHash with
    | some h =>
      if h ≠ hashFn (serializeSaveData dt) then
        { self with has_saved_profile := false, games_played := 0 }
      else loadFields self dt
    | none => loadFields self dt

/-- Cumulative weight of a cons cell unfolds by one entry. -/
theorem cumWeight_cons {α : Type} (e : α) (w : Nat) (rest : List (α × Nat)) (n : Nat) :
    cumWeight ((e, w) :: rest) (n + 1) = w + cumWeight rest n := by
  simp [cumWeight, List.take_succ_cons]

/-- Total weight of a cons cell unfolds by one entry. -/
theorem totalWeight_cons {α : Type} (e : α) (w : Nat) (rest : List (α × Nat)) :
    totalWeight ((e, w) :: rest) = w + totalWeight rest := by
  simp [totalWeight]

/-- The accumulate-and-break walk stops at the first entry whose
cumulative weight reaches the draw. -/
theorem rouletteWalk_spec {α : Type} (r : Nat) :
    ∀ (l : List (α × Nat)) (cum : Nat), cum < r → r ≤ cum + totalWeight l →
    ∃ i kw, l.get? i = some kw ∧ rouletteWalk r cum l = some kw.1 ∧
      r ≤ cum + cumWeight l (i + 1) ∧ ∀ j, j < i → ¬ (r ≤ cum + cumWeight l (j + 1))
  | [], cum, hlt, hle => by
    simp [totalWeight] at hle
    omega
  | (e, w) :: rest, cum, hlt, hle => by
    by_cases h : r ≤ cum + w
    · refine ⟨0, (e, w), rfl, by simp [rouletteWalk, h], ?_, ?_⟩
      · simpa [cumWeight_cons, cumWeight] using h
      · intro j hj; omega
    · have hlt2 : cum + w < r := by omega
      have hle2 : r ≤ (cum + w) + totalWeight rest := by
        rw [totalWeight_cons] at hle; omega
      obtain ⟨i, kw, hget, hwalk, hcum, hmin⟩ := rouletteWalk_spec r rest (cum + w) hlt2 hle2
      refine ⟨i + 1, kw, by simpa using hget, ?_, ?_, ?_⟩
      · simpa [rouletteWalk, h] using hwalk
      · rw [cumWeight_cons]; omega
      · intro j hj
        match j with
        | 0 => simpa [cumWeight_cons, cumWeight] using h
        | j' + 1 =>
          have := hmin j' (by omega)
          rw [cumWeight_cons]; omega

/-- C3: `Game.trigger_random_event` implements roulette-wheel selection:
for every draw `r` in `[1, Σ weights]` the selected kind is the table
entry at the unique first index whose cumulative weight reaches `r`, so
exactly one kind is selected, table order decides ties, and under a fixed
draw the selection is a deterministic function of the table and `r`. -/
theorem C3_weighted_selection (events : List (EventKind × Nat)) (r : Nat)
    (h1 : 1 ≤ r) (h2 : r ≤ totalWeight events) :
    ∃ i kw, events.get? i = some kw ∧ selectEvent events r = kw.1 ∧
      r ≤ cumWeight events (i + 1) ∧
      (∀ j, j < i → cumWeight events (j + 1) < r) ∧
      ∀ i', r ≤ cumWeight events (i' + 1) →
        (∀ j, j < i' → cumWeight events (j + 1) < r) → i' = i := by
  obtain ⟨i, kw, hget, hwalk, hcum, hmin⟩ :=
    rouletteWalk_spec r events 0 (by omega) (by omega)
  refine ⟨i, kw, hget, by simp [selectEvent, hwalk], by simpa using hcum, ?_, ?_⟩
  · intro j hj
    have := hmin j hj
    omega
  · intro i' h1' h2'
    by_contra hne
    rcases Nat.lt_or_ge i' i with hlt | hge
    · have := hmin i' hlt
      omega
    · have hlt2 : i < i' := by omega
      have := h2' i hlt2
      simp at hcum
      omega

/-- Witness for C3 on the EARLY/MID table with the concrete draw 15
(which lands on `breakdown`, the second entry). -/
theorem C3_weighted_selection_witness :
    ∃ i kw, eventsEarlyMid.get? i = some kw ∧ selectEvent eventsEarlyMid 15 = kw.1 ∧
      15 ≤ cumWeight eventsEarlyMid (i + 1) ∧
      (∀ j, j < i → cumWeight eventsEarlyMid (j + 1) < 15) ∧
      ∀ i', 15 ≤ cumWeight eventsEarlyMid (i' + 1) →
        (∀ j, j < i' → cumWeight eventsEarlyMid (j + 1) < 15) → i' = i :=
  C3_weighted_selection eventsEarlyMid 15 (by decide) (by decide)

/-- C6: the river fail-probability table is 1→0.40, 2→0.25, 3→0.10,
4→0.00; the warm-intro perk subtracts 0.10 and the elite-credential perk
0.05, floored at 0; with both perks a 0.40 choice resolves to exactly
0.25 (and choice 3 with both perks floors at 0). -/
theorem C6_river_fail_probabilities :
    riverFailBase 1 = 0.40 ∧ riverFailBase 2 = 0.25 ∧ riverFailBase 3 = 0.10 ∧
    riverFailBase 4 = 0 ∧
    riverEffectiveFail 1 true true = 0.25 ∧
    riverEffectiveFail 1 true false = 0.30 ∧
    riverEffectiveFail 1 false true = 0.35 ∧
    riverEffectiveFail 2 true true = 0.10 ∧
    riverEffectiveFail 3 true true = 0 ∧
    riverEffectiveFail 4 true true = 0 ∧
    ∀ c w e, 0 ≤ riverEffectiveFail c w e := by
  refine ⟨?_, ?_, ?_, ?_, ?_, ?_, ?_, ?_, ?_, ?_, ?_⟩ <;>
    first
      | (exact fun c w e => le_qmax_left _ _)
      | (norm_num [riverFailBase, riverEffectiveFail, qmax])

/-- A trail state about to resolve a river event with little runway. -/
def c2River : GState :=
  { state := 1, runway := 10, equity := 50, traction := 0,
    current_event := some .river, event_options := riverOptions }

/-- C2 counterexample: resolving the river ferry choice subtracts 15
runway with no clamp at the mutation site, leaving runway at −5, outside
[0, 100]; the value is only clamped back at the next tick. -/
theorem C2_counterexample :
    (handleRiverChoice c2River 4 {}).runway = -5 ∧
    (handleRiverChoice c2River 4 {}).runway < 0 := by
  norm_num [handleRiverChoice, c2River, riverEffectiveFail, riverFailBase, qmax]

/-- C2 amended: runway and equity lie in [0, 100] (and traction in
[0, ∞)) immediately after the anti-cheat clamp that opens every
`Game.update` tick, and every tick routes through that clamp first;
individual mutation sites may transiently leave the range until then. -/
theorem C2_clamped_at_tick_start (s : GState) :
    0 ≤ (clampStats s).runway ∧ (clampStats s).runway ≤ 100 ∧
    0 ≤ (clampStats s).equity ∧ (clampStats s).equity ≤ 100 ∧
    0 ≤ (clampStats s).traction ∧
    ∀ d, gameUpdate s d =
      if (clampStats s).state = 1 then trailTick (clampStats s) d else clampStats s := by
  refine ⟨?_, ?_, ?_, ?_, ?_, fun d => rfl⟩ <;> simp only [clampStats]
  · exact le_qmax_left _ _
  · exact qmax_le _ _ _ (by norm_num) (qmin_le_left _ _)
  · exact le_qmax_left _ _
  · exact qmax_le _ _ _ (by norm_num) (qmin_le_left _ _)
  · exact le_qmax_left _ _

/-- A trail state with the remedy menu pending and traction 10. -/
def c10Remedy : GState :=
  { state := 1, runway := 50, equity := 25, traction := 10,
    remedy_active := true, remedy_timer := 0 }

/-- C10 counterexample: remedy option 1 ("Pleasure") subtracts 5
traction, so traction is not monotonically non-decreasing. -/
theorem C10_counterexample :
    (handleRemedy c10Remedy 1 0).traction = 5 ∧
    (handleRemedy c10Remedy 1 0).traction < c10Remedy.traction := by
  norm_num [handleRemedy, c10Remedy, qmax, qmin]

set_option maxHeartbeats 2000000 in
/-- C10 amended: traction stays non-negative: the two sites that subtract
from it (remedy option 1 and a wrong hot-dog answer) floor the result at
0, and the clamp at the top of every tick restores non-negativity; but
traction is not monotone (the counterexample shows remedy option 1
decreasing it). -/
theorem C10_traction_nonneg :
    (∀ s c b, 0 ≤ s.traction → 0 ≤ (handleRemedy s c b).traction) ∧
    (∀ s c g, 0 ≤ s.traction → 0 ≤ (handleHotdogChoice s c g).traction) ∧
    (∀ s, 0 ≤ (clampStats s).traction) := by
  refine ⟨?_, ?_, ?_⟩
  · intro s c b h
    unfold handleRemedy
    split_ifs <;>
      simp only [] <;>
      first
        | exact le_qmax_left _ _
        | (exact add_nonneg h (by norm_num))
        | exact h
  · intro s c g h
    unfold handleHotdogChoice
    rcases s.hotdog_item with _ | idx
    · exact h
    · simp only []
      split_ifs <;>
        simp only [] <;>
        first
          | exact le_qmax_left _ _
          | (exact add_nonneg h (by norm_num))
          | exact h
  · intro s
    exact le_qmax_left _ _

/-- None of the 22 stat-delta patterns of `Game.handle_decision_choice`
occurs in the empty option label. -/
theorem strContains_empty_facts :
    strContains "" "+30 runway" = false ∧ strContains "" "+25 runway" = false ∧
    strContains "" "+20 runway" = false ∧ strContains "" "+15 runway" = false ∧
    strContains "" "+10 runway" = false ∧ strContains "" "-30 runway" = false ∧
    strContains "" "-25 runway" = false ∧ strContains "" "-20 runway" = false ∧
    strContains "" "-15 runway" = false ∧ strContains "" "-10 runway" = false ∧
    strContains "" "+20 equity" = false ∧ strContains "" "+15 equity" = false ∧
    strContains "" "+10 equity" = false ∧ strContains "" "+5 equity" = false ∧
    strContains "" "-20 equity" = false ∧ strContains "" "-15 equity" = false ∧
    strContains "" "-10 equity" = false ∧ strContains "" "+25 traction" = false ∧
    strContains "" "+20 traction" = false ∧ strContains "" "+15 traction" = false ∧
    strContains "" "+10 traction" = false ∧ strContains "" "+5 traction" = false := by
  decide

/-- A trail state with a two-option breakdown menu active. -/
def c5Breakdown : GState :=
  { state := 1, runway := 50, equity := 50, traction := 10,
    current_event := some .breakdown,
    event_options := ["1: Refactor (-20 runway, safe)", "2: Ship it (30% -15 equity)"] }

/-- C5 counterexample: pressing 3 with a two-option breakdown menu is not
ignored: the key dispatch passes 3 to the handler, which takes the
risk branch, mutates traction (or equity), and resolves the event. -/
theorem C5_counterexample :
    c5Breakdown.event_options.length = 2 ∧
    (eventOrRemedyKey c5Breakdown 3 {}).current_event = none ∧
    (eventOrRemedyKey c5Breakdown 3 {}).traction = 15 := by
  refine ⟨by decide, ?_, ?_⟩ <;>
    norm_num [eventOrRemedyKey, handleBreakdownChoice, c5Breakdown]

/-- C5 amended: during a menu event, key presses other than 1-4 are
ignored (and during a pending remedy, keys other than 1-5); but keys 1-4
that exceed the current menu length are still dispatched: breakdown (and
sickness) fold them into the final fallback branch, a decision resolves
the event with no stat change, while the dilemma and Gilfoyle handlers
genuinely ignore an out-of-range index. -/
theorem C5_invalid_input :
    (∀ (s : GState) (key : Nat) (rd : ResolveDraws),
      s.current_event.isSome → s.current_event ≠ some EventKind.tweet →
      key ≠ 1 → key ≠ 2 → key ≠ 3 → key ≠ 4 →
      eventOrRemedyKey s key rd = s) ∧
    (∀ (s : GState) (key : Nat) (rd : ResolveDraws),
      s.current_event = none → s.remedy_active = true → s.remedy_timer = 0 →
      key ≠ 1 → key ≠ 2 → key ≠ 3 → key ≠ 4 → key ≠ 5 →
      eventOrRemedyKey s key rd = s) ∧
    (∀ (s : GState) (c : Nat) (roll : ℚ) (lossD : Nat),
      c ≠ 1 → handleBreakdownChoice s c roll lossD = handleBreakdownChoice s 2 roll lossD) ∧
    (∀ (s : GState) (c : Nat) (roll : ℚ) (reasonD : Nat),
      c ≠ 1 → c ≠ 2 →
      handleSicknessChoice s c roll reasonD = handleSicknessChoice s 3 roll reasonD) ∧
    (∀ (s : GState) (c : Nat) (r : ℚ),
      s.gilfoyle_pact = none → handleGilfoyleChoice s c r = s) ∧
    (∀ (s : GState) (c : Nat) (r : ℚ) (p : Nat),
      s.gilfoyle_pact = some p → (gilfoylePacts.getD p []).length < c →
      handleGilfoyleChoice s c r = s) ∧
    (∀ (s : GState) (c : Nat) (dd : DilemmaDraws),
      s.event_dilemma = none → handleDilemmaChoice s c dd = s) ∧
    (∀ (s : GState) (c : Nat) (dd : DilemmaDraws) (p : Nat),
      s.event_dilemma = some p → (svDilemmas.getD p []).length < c →
      handleDilemmaChoice s c dd = s) ∧
    (∀ (s : GState) (c : Nat),
      s.event_options.length < c →
      (handleDecisionChoice s c).runway = s.runway ∧
      (handleDecisionChoice s c).equity = s.equity ∧
      (handleDecisionChoice s c).traction = s.traction ∧
      (handleDecisionChoice s c).co_founders = s.co_founders ∧
      (handleDecisionChoice s c).current_event = none) := by
  refine ⟨?_, ?_, ?_, ?_, ?_, ?_, ?_, ?_, ?_⟩
  · intro s key rd hsome hnt h1 h2 h3 h4
    rcases hk : s.current_event with _ | k
    · rw [hk] at hsome; simp at hsome
    · cases k <;> simp_all [eventOrRemedyKey, hk]
  · intro s key rd hnone hact htimer h1 h2 h3 h4 h5
    simp [eventOrRemedyKey, hnone, hact, htimer, h1, h2, h3, h4, h5]
  · intro s c roll lossD hc
    unfold handleBreakdownChoice
    simp [hc]
  · intro s c roll reasonD hc1 hc2
    unfold handleSicknessChoice
    simp [hc1, hc2]
  · intro s c r hp
    unfold handleGilfoyleChoice
    rw [hp]
  · intro s c r p hp hlen
    unfold handleGilfoyleChoice
    rw [hp]
    simp only []
    rw [if_pos (Or.inr (by omega))]
  · intro s c dd hp
    unfold handleDilemmaChoice
    rw [hp]
  · intro s c dd p hp hlen
    unfold handleDilemmaChoice
    rw [hp]
    simp only []
    rw [if_pos (Or.inr (by omega))]
  · intro s c hlen
    have hc : ¬ c ≤ s.event_options.length := by omega
    obtain ⟨f1, f2, f3, f4, f5, f6, f7, f8, f9, f10, f11, f12, f13, f14, f15, f16, f17,
      f18, f19, f20, f21, f22⟩ := strContains_empty_facts
    refine ⟨?_, ?_, ?_, ?_, ?_⟩ <;>
      simp only [handleDecisionChoice, scanRunwayPlus, scanRunwayMinus, scanEquityPlus,
        scanEquityMinus, scanTractionPlus, hc, if_false, ite_false,
        f1, f2, f3, f4, f5, f6, f7, f8, f9, f10, f11, f12, f13, f14, f15, f16, f17,
        f18, f19, f20, f21, f22, Bool.false_eq_true]

/-- Witness for the hypothesis-bearing clauses of `C5_invalid_input`:
key 7 is ignored during the breakdown event, and key 9 is ignored while
the remedy menu is pending. -/
theorem C5_invalid_input_witness :
    eventOrRemedyKey c5Breakdown 7 {} = c5Breakdown ∧
    eventOrRemedyKey c10Remedy 9 {} = c10Remedy :=
  ⟨C5_invalid_input.1 c5Breakdown 7 {} (by decide) (by decide)
      (by decide) (by decide) (by decide) (by decide),
   C5_invalid_input.2.1 c10Remedy 9 {} (by decide) (by decide) (by decide)
      (by decide) (by decide) (by decide) (by decide) (by decide)⟩

/-- Witness for `C10_traction_nonneg` at remedy choice 1 on traction 10
and a hot-dog guess on a state with no item drawn. -/
theorem C10_traction_nonneg_witness :
    0 ≤ (handleRemedy c10Remedy 1 0).traction ∧
    0 ≤ (handleHotdogChoice c10Remedy 2 0).traction :=
  ⟨C10_traction_nonneg.1 c10Remedy 1 0 (by decide),
   C10_traction_nonneg.2.1 c10Remedy 2 0 (by decide)⟩

/-- A concrete founder profile used by the persistence claims. -/
def c9Profile : Profile :=
  { company_name := "Acme", problem := "p1", solution := "s1",
    warm_intro := true, elite_college := false, high_score := 3,
    games_played := 7, has_saved_profile := true }

/-- C9 counterexample: the untampered save/load round trip does not
reproduce the games-played field: `Game.save_profile` writes
`games_played + 1`, so loading returns 8 where the profile had 7 (the
other listed fields do round-trip). -/
theorem C9_counterexample :
    (loadProfile (fun _ => "h") {} (some (saveProfile (fun _ => "h") c9Profile))).games_played = 8 ∧
    c9Profile.games_played = 7 ∧
    (loadProfile (fun _ => "h") {} (some (saveProfile (fun _ => "h") c9Profile))).games_played ≠
      c9Profile.games_played := by
  refine ⟨?_, rfl, ?_⟩ <;>
    simp [loadProfile, saveProfile, loadFields, c9Profile]

/-- C9 amended: an untampered save/load round trip reproduces the
company/problem/solution strings (through the loader's 50/100/100
truncation), both perk booleans and the high score, while games played
comes back incremented by exactly one; a stored digest that differs from
the recomputed digest of the data region (as a byte flip in the data
region forces, barring digest collisions), or a missing/unparseable file,
falls back to defaults without raising. -/
theorem C9_roundtrip_and_tamper :
    (∀ (hashFn : String → String) (self p : Profile),
      (loadProfile hashFn self (some (saveProfile hashFn p))).company_name = p.company_name.take 50 ∧
      (loadProfile hashFn self (some (saveProfile hashFn p))).problem = p.problem.take 100 ∧
      (loadProfile hashFn self (some (saveProfile hashFn p))).solution = p.solution.take 100 ∧
      (loadProfile hashFn self (some (saveProfile hashFn p))).warm_intro = p.warm_intro ∧
      (loadProfile hashFn self (some (saveProfile hashFn p))).elite_college = p.elite_college ∧
      (loadProfile hashFn self (some (saveProfile hashFn p))).high_score = p.high_score ∧
      (loadProfile hashFn self (some (saveProfile hashFn p))).games_played = p.games_played + 1) ∧
    (∀ (hashFn : String → String) (self : Profile) (dt : SaveData) (h : String),
      hashFn (serializeSaveData dt) ≠ h →
      loadProfile hashFn self (some (dt, some h)) =
        { self with has_saved_profile := false, games_played := 0 }) ∧
    (∀ (hashFn : String → String) (self : Profile),
      loadProfile hashFn self none =
        { self with has_saved_profile := false, games_played := 0 }) := by
  refine ⟨?_, ?_, fun _ _ => rfl⟩
  · intro hashFn self p
    refine ⟨?_, ?_, ?_, ?_, ?_, ?_, ?_⟩ <;>
      simp [loadProfile, saveProfile, loadFields]
  · intro hashFn self dt h hne
    simp [loadProfile, Ne.symm hne]

/-- Witness for `C9_roundtrip_and_tamper`: a save file whose stored
digest "bad" differs from the recomputed digest "good" loads as the
defaulted profile. -/
theorem C9_roundtrip_and_tamper_witness :
    loadProfile (fun _ => "good") c9Profile
        (some (⟨"Acme", "p1", "s1", true, false, 3, 8⟩, some "bad")) =
      { c9Profile with has_saved_profile := false, games_played := 0 } :=
  C9_roundtrip_and_tamper.2.1 (fun _ => "good") c9Profile
    ⟨"Acme", "p1", "s1", true, false, 3, 8⟩ "bad" (by decide)

/-- Pace speeds never exceed 1 distance unit per tick. -/
theorem paceSpeed_le_one (p : Nat) : paceSpeed p ≤ 1 := by
  unfold paceSpeed; split_ifs <;> norm_num

/-- Pace speeds are positive. -/
theorem paceSpeed_pos (p : Nat) : 0 < paceSpeed p := by
  unfold paceSpeed; split_ifs <;> norm_num

/-- Pace drains are positive. -/
theorem paceDrain_pos (p : Nat) : 0 < paceDrain p := by
  unfold paceDrain; split_ifs <;> norm_num

/-- Pace drains never exceed 0.05 runway per tick. -/
theorem paceDrain_le (p : Nat) : paceDrain p ≤ 0.05 := by
  unfold paceDrain; split_ifs <;> norm_num

/-- The per-tick clamp is the identity on states already within range. -/
theorem clampStats_eq_self (s : GState)
    (h1 : 0 ≤ s.runway) (h2 : s.runway ≤ 100)
    (h3 : 0 ≤ s.equity) (h4 : s.equity ≤ 100) (h5 : 0 ≤ s.traction) :
    clampStats s = s := by
  have hr : qmax 0 (qmin 100 s.runway) = s.runway := by
    unfold qmax qmin; split_ifs <;> linarith
  have he : qmax 0 (qmin 100 s.equity) = s.equity := by
    unfold qmax qmin; split_ifs <;> linarith
  have ht : qmax 0 s.traction = s.traction := by
    unfold qmax; split_ifs <;> linarith
  unfold clampStats
  rw [hr, he, ht]

/-- The runway branch of the loss ladder fires first. -/
theorem lossCheck_runway (s : GState) (d : Draws) (h : s.runway ≤ 0) :
    lossCheck s d = { s with state := 6, death_quote := some (.runwayPool, d.deathQuoteIdx % 3) } := by
  simp [lossCheck, h]

/-- The equity branch of the loss ladder fires only when runway survived. -/
theorem lossCheck_equity (s : GState) (d : Draws) (h1 : ¬ s.runway ≤ 0) (h2 : s.equity ≤ 0) :
    lossCheck s d = { s with state := 6, death_quote := some (.equityPool, d.deathQuoteIdx % 2) } := by
  simp [lossCheck, h1, h2]

/-- The team branch of the loss ladder fires only when runway and equity
survived. -/
theorem lossCheck_team (s : GState) (d : Draws) (h1 : ¬ s.runway ≤ 0) (h2 : ¬ s.equity ≤ 0)
    (h3 : aliveCount s.co_founders = 0) :
    lossCheck s d = { s with state := 6, death_quote := some (.teamPool, 0) } := by
  simp [lossCheck, h1, h2, h3]

/-- The loss ladder is the identity when no loss condition holds. -/
theorem lossCheck_id (s : GState) (d : Draws) (h1 : ¬ s.runway ≤ 0) (h2 : ¬ s.equity ≤ 0)
    (h3 : aliveCount s.co_founders ≠ 0) :
    lossCheck s d = s := by
  simp [lossCheck, h1, h2, h3]

/-- The loss ladder does not touch the event or remedy flags. -/
theorem lossCheck_preserves (s : GState) (d : Draws) :
    (lossCheck s d).current_event = s.current_event ∧
    (lossCheck s d).remedy_active = s.remedy_active ∧
    (lossCheck s d).remedy_timer = s.remedy_timer ∧
    (lossCheck s d).distance = s.distance := by
  unfold lossCheck; split_ifs <;> exact ⟨rfl, rfl, rfl, rfl⟩

/-- The tweet tick never moves the wagon. -/
theorem updateTweetEvent_distance (s : GState) :
    (updateTweetEvent s).distance = s.distance := by
  unfold updateTweetEvent resolveTweetTimeout
  split_ifs <;> first | rfl | simp [apply_ite GState.distance]

set_option maxHeartbeats 4000000 in
/-- One normal trail tick (state 1, not paused, no remedy, no pending
result, no active event, outside a cycle round, with the hunt trigger,
event countdown and distance-win branches not firing) advances distance
and drains runway, leaves equity, the roster and the mode untouched, arms
the remedy when equity is at or below the threshold, and ends in the
terminal-loss ladder. -/
theorem trailTick_normal (s : GState) (d : Draws)
    (hpause : s.paused = false)
    (hrem : s.remedy_active = false)
    (hres : s.event_result_timer ≤ 0)
    (hev : s.current_event = none)
    (hround : s.trail_round_active = false)
    (hhunt : s.distance + paceSpeed s.pace - s.hunt_distance_trigger < (s.hunt_next_at : ℚ))
    (htr : 20 ≤ s.traction)
    (hevt : s.event_timer + 1 < s.next_event_at)
    (hwin : s.distance + paceSpeed s.pace < 2000) :
    ∃ s' : GState,
      trailTick s d = lossCheck s' d ∧
      s'.runway = s.runway - paceDrain s.pace ∧
      s'.equity = s.equity ∧
      s'.distance = s.distance + paceSpeed s.pace ∧
      s'.co_founders = s.co_founders ∧
      s'.state = s.state ∧
      s'.death_quote = s.death_quote ∧
      s'.current_event = none ∧
      (s.equity ≤ 30 → s'.remedy_active = true ∧ s'.remedy_timer = 0) := by
  have hres' : ¬ (s.event_result_timer > 0) := by omega
  have hlow : ¬ (s.traction < 20) := not_lt.mpr htr
  have hevt' : ¬ (s.event_timer + 1 ≥ s.next_event_at) := by omega
  have hhunt' : ¬ ((s.hunt_next_at : ℚ) ≤ s.distance + paceSpeed s.pace - s.hunt_distance_trigger) :=
    not_le.mpr hhunt
  have hwin' : ¬ ((2000 : ℚ) ≤ s.distance + paceSpeed s.pace) := not_le.mpr hwin
  have hc1 : (0 : Int) < 150 := by norm_num
  have hc2 : ¬ ((150 : Int) - 1 ≤ 0) := by norm_num
  by_cases hq : d.quoteRoll < 0.002 <;>
    by_cases hqt : s.quote_timer > 0 <;>
      by_cases hqd : s.quote_timer - 1 ≤ 0 <;>
        by_cases heq : s.equity ≤ (30 : ℚ) <;>
  (simp only [trailTick, remedyThreshold, triggerRemedy, hpause, hrem, hres', hev, hround,
      hq, hqt, hqd, heq, hevt', hhunt', hwin', hlow, hc1, hc2,
      Bool.false_eq_true, if_false, ite_false, if_true, ite_true, Option.isSome_none,
      not_false_eq_true, false_and, and_false, and_true, true_and, or_false, false_or,
      not_true, gt_iff_lt, ge_iff_le]) <;>
  (refine ⟨_, rfl, rfl, rfl, rfl, rfl, rfl, rfl, rfl, ?_⟩) <;>
  (intro h30; first | exact ⟨rfl, rfl⟩ | exact h30.elim | exact absurd h30 heq)

/-- A trail state one tick away from having runway below 0 and distance
at 2000 simultaneously. -/
def c1Pre : GState :=
  { state := 1, runway := 0.01, equity := 50, traction := 50, distance := 1999.6,
    pace := 1, hunt_distance_trigger := 1999, hunt_next_at := 1500,
    event_timer := 0, next_event_at := 800, trail_round_active := false }

/-- C1 counterexample: in a tick where the drain takes runway below 0 and
the advance takes distance past 2000 simultaneously, the update enters
the final-bonus (win) sequence, not the runway loss: the distance check
(main.py line 3112) runs before the loss ladder (main.py line 3119) and
returns. -/
theorem C1_counterexample :
    (gameUpdate c1Pre {}).runway < 0 ∧
    (gameUpdate c1Pre {}).distance ≥ 2000 ∧
    (gameUpdate c1Pre {}).state = 2 ∧
    (gameUpdate c1Pre {}).death_quote = none := by
  refine ⟨?_, ?_, ?_, ?_⟩ <;>
    norm_num [gameUpdate, c1Pre, clampStats, trailTick, qmin, qmax, paceSpeed, paceDrain,
      startFinalBonus, remedyThreshold, triggerRemedy]

/-- C1 amended: the three loss conditions are evaluated in the fixed
order runway, equity, team, first match wins, after the per-tick advance;
but the distance-2000 transition to the bonus/win sequence is evaluated
before the loss ladder, so the hypotheses here exclude it.  When runway
hits zero the runway reason fires regardless of equity and the roster;
with runway alive, zero equity gives the equity reason regardless of the
roster; then the team check; else no terminal transition. -/
theorem C1_loss_priority (s : GState) (d : Draws)
    (hb1 : 0 ≤ s.runway) (hb2 : s.runway ≤ 100) (hb3 : 0 ≤ s.equity) (hb4 : s.equity ≤ 100)
    (hb5 : 0 ≤ s.traction)
    (hstate : s.state = 1) (hpause : s.paused = false) (hrem : s.remedy_active = false)
    (hres : s.event_result_timer ≤ 0) (hev : s.current_event = none)
    (hround : s.trail_round_active = false)
    (hhdt : s.hunt_distance_trigger = 0) (hdist : s.distance < 999)
    (hhna : 1000 ≤ s.hunt_next_at)
    (htr : 20 ≤ s.traction) (hevt : s.event_timer + 1 < s.next_event_at) :
    (s.runway = 0 →
      (gameUpdate s d).state = 6 ∧
      (gameUpdate s d).death_quote = some (.runwayPool, d.deathQuoteIdx % 3)) ∧
    (1 ≤ s.runway → s.equity = 0 →
      (gameUpdate s d).state = 6 ∧
      (gameUpdate s d).death_quote = some (.equityPool, d.deathQuoteIdx % 2)) ∧
    (1 ≤ s.runway → 0 < s.equity → aliveCount s.co_founders = 0 →
      (gameUpdate s d).state = 6 ∧ (gameUpdate s d).death_quote = some (.teamPool, 0)) ∧
    (1 ≤ s.runway → 0 < s.equity → aliveCount s.co_founders ≠ 0 →
      (gameUpdate s d).state = 1 ∧ (gameUpdate s d).death_quote = s.death_quote) := by
  have hsp := paceSpeed_le_one s.pace
  have hdp := paceDrain_pos s.pace
  have hdl := paceDrain_le s.pace
  have hdl2 : paceDrain s.pace ≤ 1 := by
    have : (0.05 : ℚ) ≤ 1 := by norm_num
    linarith
  have hcast : (1000 : ℚ) ≤ (s.hunt_next_at : ℚ) := by exact_mod_cast hhna
  have hhunt : s.distance + paceSpeed s.pace - s.hunt_distance_trigger < (s.hunt_next_at : ℚ) := by
    rw [hhdt]; linarith
  have hwin : s.distance + paceSpeed s.pace < 2000 := by linarith
  have hclamp : clampStats s = s := clampStats_eq_self s hb1 hb2 hb3 hb4 hb5
  have hgu : gameUpdate s d = trailTick s d := by
    unfold gameUpdate
    rw [hclamp, if_pos hstate]
  obtain ⟨s', heq, hrw, heqy, hdis, hcf, hst, hdq, hce, _⟩ :=
    trailTick_normal s d hpause hrem hres hev hround hhunt htr hevt hwin
  rw [hgu, heq]
  refine ⟨?_, ?_, ?_, ?_⟩
  · intro hr0
    rw [lossCheck_runway s' d (by rw [hrw, hr0]; linarith)]
    exact ⟨rfl, rfl⟩
  · intro hr1 he0
    rw [lossCheck_equity s' d (not_le.mpr (by rw [hrw]; linarith))
      (by rw [heqy, he0])]
    exact ⟨rfl, rfl⟩
  · intro hr1 hepos hal
    rw [lossCheck_team s' d (not_le.mpr (by rw [hrw]; linarith))
      (not_le.mpr (by rw [heqy]; linarith)) (by rw [hcf]; exact hal)]
    exact ⟨rfl, rfl⟩
  · intro hr1 hepos hal
    rw [lossCheck_id s' d (not_le.mpr (by rw [hrw]; linarith))
      (not_le.mpr (by rw [heqy]; linarith)) (by rw [hcf]; exact hal)]
    exact ⟨by rw [hst, hstate], hdq⟩

/-- A trail state in which all three loss conditions hold at once:
runway 0, equity 0, and every co-founder gone. -/
def c1LossState : GState :=
  { state := 1, runway := 0, equity := 0, traction := 50, distance := 100,
    pace := 1, hunt_distance_trigger := 0, hunt_next_at := 1000,
    event_timer := 0, next_event_at := 800, trail_round_active := false,
    co_founders := [⟨"Jane", false⟩, ⟨"Alex", false⟩, ⟨"Sam", false⟩] }

/-- Witness for `C1_loss_priority`: with runway 0, equity 0 and the whole
roster dead at once, the recorded loss reason is the runway pool. -/
theorem C1_loss_priority_witness :
    (gameUpdate c1LossState {}).state = 6 ∧
    (gameUpdate c1LossState {}).death_quote = some (.runwayPool, 0) :=
  (C1_loss_priority c1LossState {} (by decide) (by decide) (by decide) (by decide)
    (by decide) (by decide) (by decide) (by decide) (by decide) (by decide) (by decide)
    (by decide) (by decide) (by decide) (by decide) (by decide)).1 (by decide)

set_option maxHeartbeats 2000000 in
/-- A normal trail tick in which additionally the quote roll misses, the
quote timer is idle and equity is above the remedy threshold is exactly
an advance followed by the loss ladder. -/
theorem trailTick_normal_eq (s : GState) (d : Draws)
    (hpause : s.paused = false) (hrem : s.remedy_active = false)
    (hres : s.event_result_timer ≤ 0) (hev : s.current_event = none)
    (hround : s.trail_round_active = false)
    (hhunt : s.distance + paceSpeed s.pace - s.hunt_distance_trigger < (s.hunt_next_at : ℚ))
    (hhunt2 : ¬ ((s.traction < 20 ∧ 200 < s.distance + paceSpeed s.pace) ∧
        500 < s.distance + paceSpeed s.pace - s.hunt_distance_trigger))
    (hevt : s.event_timer + 1 < s.next_event_at)
    (hwin : s.distance + paceSpeed s.pace < 2000)
    (hq : ¬ (d.quoteRoll < 0.002)) (hqt : s.quote_timer = 0)
    (heqy : ¬ (s.equity ≤ 30)) :
    trailTick s d =
      lossCheck { s with distance := s.distance + paceSpeed s.pace,
                         runway := s.runway - paceDrain s.pace,
                         event_timer := s.event_timer + 1 } d := by
  have hres' : ¬ (s.event_result_timer > 0) := by omega
  have hqt' : ¬ (s.quote_timer > 0) := by omega
  have hevt' : ¬ (s.event_timer + 1 ≥ s.next_event_at) := by omega
  have hhunt' : ¬ ((s.hunt_next_at : ℚ) ≤ s.distance + paceSpeed s.pace - s.hunt_distance_trigger) :=
    not_le.mpr hhunt
  have hwin' : ¬ ((2000 : ℚ) ≤ s.distance + paceSpeed s.pace) := not_le.mpr hwin
  simp only [trailTick, remedyThreshold, hpause, hrem, hres', hev, hround, hq, hqt', heqy,
    hevt', hhunt', hhunt2, hwin', Bool.false_eq_true, if_false, ite_false, if_true, ite_true,
    Option.isSome_none, not_false_eq_true, false_and, and_false, and_true, true_and,
    or_false, false_or, not_true, gt_iff_lt, ge_iff_le]

/-- The C8 scenario start: fresh stats, steady pace, with the event
countdown and hunt thresholds drawn at 1500 so that neither fires within
the first 1000 ticks. -/
def c8Init : GState :=
  { state := 1, runway := 100, equity := 100, traction := 0, distance := 0, pace := 1,
    event_timer := 0, next_event_at := 1500, hunt_distance_trigger := 0, hunt_next_at := 1500,
    trail_round_active := false }

/-- The C8 scenario state after `n` ticks. -/
def c8At (n : Nat) : GState :=
  { c8Init with distance := 0.5 * n, runway := 100 - 0.02 * n, event_timer := n }

/-- One C8 tick advances the closed form by one. -/
theorem c8_step (n : Nat) (hn : n < 1000) :
    gameUpdate (c8At n) {} = c8At (n + 1) := by
  have hcn : (n : ℚ) ≤ 999 := by
    have h : n ≤ 999 := by omega
    exact_mod_cast h
  have hcn0 : (0 : ℚ) ≤ (n : ℚ) := Nat.cast_nonneg n
  have hb1 : (0 : ℚ) ≤ (c8At n).runway := by
    show (0 : ℚ) ≤ 100 - 0.02 * n
    linarith
  have hb2 : (c8At n).runway ≤ 100 := by
    show (100 : ℚ) - 0.02 * n ≤ 100
    linarith
  have hb3 : (0 : ℚ) ≤ (c8At n).equity := by norm_num [c8At, c8Init]
  have hb4 : (c8At n).equity ≤ 100 := by norm_num [c8At, c8Init]
  have hb5 : (0 : ℚ) ≤ (c8At n).traction := by norm_num [c8At, c8Init]
  have hhunt : (c8At n).distance + paceSpeed (c8At n).pace - (c8At n).hunt_distance_trigger
      < ((c8At n).hunt_next_at : ℚ) := by
    show (0.5 : ℚ) * n + paceSpeed 1 - 0 < ((1500 : Nat) : ℚ)
    norm_num [paceSpeed]
    linarith
  have hhunt2 : ¬ (((c8At n).traction < 20 ∧ 200 < (c8At n).distance + paceSpeed (c8At n).pace) ∧
      500 < (c8At n).distance + paceSpeed (c8At n).pace - (c8At n).hunt_distance_trigger) := by
    show ¬ (((0 : ℚ) < 20 ∧ 200 < 0.5 * n + paceSpeed 1) ∧ 500 < 0.5 * n + paceSpeed 1 - 0)
    rintro ⟨-, hd⟩
    norm_num [paceSpeed] at hd
    linarith
  have hwin : (c8At n).distance + paceSpeed (c8At n).pace < 2000 := by
    show (0.5 : ℚ) * n + paceSpeed 1 < 2000
    norm_num [paceSpeed]
    linarith
  unfold gameUpdate
  rw [clampStats_eq_self _ hb1 hb2 hb3 hb4 hb5, if_pos (show (c8At n).state = 1 from rfl)]
  rw [trailTick_normal_eq (c8At n) {} rfl rfl (by norm_num [c8At, c8Init]) rfl rfl hhunt
    hhunt2 (by show n + 1 < 1500; omega) hwin
    (by show ¬ ((1 : ℚ) < 0.002); norm_num) rfl
    (by show ¬ ((100 : ℚ) ≤ 30); norm_num)]
  rw [lossCheck_id]
  · show ({ c8At n with
        distance := (c8At n).distance + paceSpeed (c8At n).pace,
        runway := (c8At n).runway - paceDrain (c8At n).pace,
        event_timer := (c8At n).event_timer + 1 } : GState) = c8At (n + 1)
    simp only [c8At, c8Init, GState.mk.injEq, paceSpeed, paceDrain]
    norm_num
    constructor
    · push_cast; ring
    · push_cast; ring
  · show ¬ ((100 : ℚ) - 0.02 * n - paceDrain 1 ≤ 0)
    norm_num [paceDrain]
    linarith
  · show ¬ ((100 : ℚ) ≤ 0)
    norm_num
  · show aliveCount c8Init.co_founders ≠ 0
    decide

/-- The C8 closed form holds for every tick count up to 1000. -/
theorem c8_reach : ∀ n, n ≤ 1000 → tickN c8Init {} n = c8At n := by
  intro n
  induction n with
  | zero =>
    intro _
    show c8Init = c8At 0
    simp only [c8At, c8Init, GState.mk.injEq]
    norm_num
  | succ k ih =>
    intro hk
    show gameUpdate (tickN c8Init {} k) {} = c8At (k + 1)
    rw [ih (by omega), c8_step k (by omega)]

/-- While the recovery interlude is pending or running (state 1, not
paused), a tick never advances distance: every branch reachable with
`remedy_active` set returns before the advance. -/
theorem trailTick_halted (s : GState) (d : Draws)
    (hpause : s.paused = false) (hrem : s.remedy_active = true) (hrt : 0 ≤ s.remedy_timer) :
    (trailTick s d).distance = s.distance := by
  by_cases h1 : s.remedy_timer > 0
  · unfold trailTick
    rw [if_neg (by simp [hpause]), if_pos (⟨hrem, h1⟩ : s.remedy_active = true ∧ s.remedy_timer > 0)]
    first | (split_ifs <;> rfl) | simp [apply_ite GState.distance]
  · have h0 : s.remedy_timer = 0 := by omega
    unfold trailTick
    rw [if_neg (by simp [hpause]), if_neg (fun h => h1 h.2)]
    by_cases h3 : s.event_result_timer > 0
    · rw [if_pos h3]
      first | (split_ifs <;> rfl) | simp [apply_ite GState.distance]
    · rw [if_neg h3]
      rcases hce : s.current_event with _ | k
      · rw [if_neg (by simp), if_pos (⟨hrem, h0⟩ : s.remedy_active = true ∧ s.remedy_timer = 0)]
      · rw [if_pos (by simp)]
        by_cases hk : k = EventKind.tweet
        · subst hk
          rw [if_pos rfl, updateTweetEvent_distance]
        · rw [if_neg (by simp [hk])]

/-- A trail round state one tick from the event countdown expiring with
equity already at 25: the same tick then triggers a river event and arms
the remedy. -/
def c4Pre : GState :=
  { state := 1, trail_round_active := true, trail_round_timer := 500,
    equity := 25, runway := 50, traction := 50, distance := 100,
    event_timer := 799, next_event_at := 800 }

/-- C4 counterexample: when the event countdown expires on a tick in
which equity is already at or below 30, `Game.update` first triggers the
event (setting `current_event`) and then still calls `trigger_remedy`
(main.py lines 3104-3110 and 3077-3083), leaving a state in which a
non-null `current_event` and a pending remedy (`remedy_active` with
`remedy_timer = 0`) are both active at once. -/
theorem C4_counterexample :
    (gameUpdate c4Pre {}).current_event = some EventKind.river ∧
    (gameUpdate c4Pre {}).remedy_active = true ∧
    (gameUpdate c4Pre {}).remedy_timer = 0 ∧
    (gameUpdate c4Pre {}).state = 1 := by
  refine ⟨?_, ?_, ?_, ?_⟩ <;>
    norm_num [gameUpdate, c4Pre, clampStats, trailTick, qmin, qmax, paceSpeed, paceDrain,
      triggerRandomEvent, trailSegment, selectEvent, rouletteWalk, totalWeight,
      eventsEarlyMid, triggerRiverEvent, triggerRemedy, remedyThreshold, lossCheck, aliveCount]

/-- C4 amended: equity at or below 30 outside an active event forces the
recovery interlude at that tick, and while the interlude is pending or
running no progress is made; the remedy overlay is only ever presented
when no event is active (draw and input give the event precedence); but
the `remedy_active`-with-pending-choice flag and a non-null
`current_event` can both be set when the event countdown expires on the
same tick that finds equity at or below the threshold (the
counterexample). -/
theorem C4_remedy_forcing_and_exclusion :
    (∀ s : GState, shownOverlay s = Overlay.remedyOverlay → s.current_event = none) ∧
    (∀ (s : GState) (d : Draws),
      0 ≤ s.runway → s.runway ≤ 100 → 0 ≤ s.equity → s.equity ≤ 100 → 0 ≤ s.traction →
      s.state = 1 → s.paused = false → s.remedy_active = false →
      s.event_result_timer ≤ 0 → s.current_event = none → s.trail_round_active = false →
      s.hunt_distance_trigger = 0 → s.distance < 999 → 1000 ≤ s.hunt_next_at →
      20 ≤ s.traction → s.event_timer + 1 < s.next_event_at →
      s.equity ≤ 30 →
      (gameUpdate s d).remedy_active = true ∧ (gameUpdate s d).remedy_timer = 0 ∧
      (gameUpdate s d).current_event = none) ∧
    (∀ (s : GState) (d : Draws),
      s.state = 1 → s.paused = false → s.remedy_active = true → 0 ≤ s.remedy_timer →
      (gameUpdate s d).distance = s.distance) := by
  refine ⟨?_, ?_, ?_⟩
  · intro s h
    rcases hc : s.current_event with _ | k
    · rfl
    · cases k <;> simp [shownOverlay, hc] at h
  · intro s d hb1 hb2 hb3 hb4 hb5 hstate hpause hrem hres hev hround hhdt hdist hhna htr hevt heq30
    have hsp := paceSpeed_le_one s.pace
    have hcast : (1000 : ℚ) ≤ (s.hunt_next_at : ℚ) := by exact_mod_cast hhna
    have hhunt : s.distance + paceSpeed s.pace - s.hunt_distance_trigger < (s.hunt_next_at : ℚ) := by
      rw [hhdt]; linarith
    have hwin : s.distance + paceSpeed s.pace < 2000 := by linarith
    have hclamp : clampStats s = s := clampStats_eq_self s hb1 hb2 hb3 hb4 hb5
    have hgu : gameUpdate s d = trailTick s d := by
      unfold gameUpdate
      rw [hclamp, if_pos hstate]
    obtain ⟨s', heq, hrw, heqy, hdis, hcf, hst, hdq, hce, hforce⟩ :=
      trailTick_normal s d hpause hrem hres hev hround hhunt htr hevt hwin
    obtain ⟨hf1, hf2⟩ := hforce heq30
    obtain ⟨hp1, hp2, hp3, _⟩ := lossCheck_preserves s' d
    rw [hgu, heq]
    exact ⟨by rw [hp2, hf1], by rw [hp3, hf2], by rw [hp1, hce]⟩
  · intro s d hstate hpause hrem hrt
    have hgu : gameUpdate s d = trailTick (clampStats s) d := by
      unfold gameUpdate
      rw [if_pos (show (clampStats s).state = 1 from hstate)]
    rw [hgu]
    exact trailTick_halted (clampStats s) d hpause hrem hrt

/-- A trail state with the interlude running (timer 120). -/
def c4Halted : GState :=
  { state := 1, runway := 50, equity := 40, traction := 30, distance := 250,
    remedy_active := true, remedy_timer := 120 }

/-- Witness for `C4_remedy_forcing_and_exclusion`: the tick after c4Pre
resolves... equity 25 with no event forces the remedy, and a tick of the
running interlude leaves distance at 250. -/
theorem C4_remedy_forcing_and_exclusion_witness :
    ((gameUpdate c10Remedy {}).distance = c10Remedy.distance) ∧
    ((gameUpdate c4Halted {}).distance = c4Halted.distance) :=
  ⟨C4_remedy_forcing_and_exclusion.2.2 c10Remedy {} (by decide) (by decide) (by decide)
      (by decide),
   C4_remedy_forcing_and_exclusion.2.2 c4Halted {} (by decide) (by decide) (by decide)
      (by decide)⟩

/-- While the interlude runs with more than one tick left, a tick only
decrements the timer and regenerates 0.3 equity (capped at 100)
(main.py lines 3039-3045). -/
theorem gameUpdate_remedy_run (s : GState) (d : Draws)
    (hstate : s.state = 1) (hpause : s.paused = false) (hrem : s.remedy_active = true)
    (hrt : 1 < s.remedy_timer)
    (hb1 : 0 ≤ s.runway) (hb2 : s.runway ≤ 100) (hb3 : 0 ≤ s.equity) (hb4 : s.equity ≤ 100)
    (hb5 : 0 ≤ s.traction) :
    gameUpdate s d =
      { s with remedy_timer := s.remedy_timer - 1, equity := qmin 100 (s.equity + 0.3) } := by
  unfold gameUpdate
  rw [clampStats_eq_self s hb1 hb2 hb3 hb4 hb5, if_pos hstate]
  unfold trailTick
  rw [if_neg (by simp [hpause]), if_pos (⟨hrem, by omega⟩ : s.remedy_active = true ∧ s.remedy_timer > 0)]
  have hx : ¬ (s.remedy_timer - 1 ≤ 0) := by omega
  exact if_neg hx

/-- The last interlude tick additionally clears the `remedy_active` flag
and the selected remedy (main.py lines 3042-3045). -/
theorem gameUpdate_remedy_last (s : GState) (d : Draws)
    (hstate : s.state = 1) (hpause : s.paused = false) (hrem : s.remedy_active = true)
    (hrt : s.remedy_timer = 1)
    (hb1 : 0 ≤ s.runway) (hb2 : s.runway ≤ 100) (hb3 : 0 ≤ s.equity) (hb4 : s.equity ≤ 100)
    (hb5 : 0 ≤ s.traction) :
    gameUpdate s d =
      { s with remedy_timer := s.remedy_timer - 1, equity := qmin 100 (s.equity + 0.3),
               remedy_active := false, selected_remedy := "" } := by
  unfold gameUpdate
  rw [clampStats_eq_self s hb1 hb2 hb3 hb4 hb5, if_pos hstate]
  unfold trailTick
  rw [if_neg (by simp [hpause]), if_pos (⟨hrem, by omega⟩ : s.remedy_active = true ∧ s.remedy_timer > 0)]
  have hx : s.remedy_timer - 1 ≤ 0 := by omega
  exact if_pos hx

/-- Capping at 100 twice while only adding a non-negative amount in
between collapses to a single cap. -/
theorem qmin_add_absorb (x c : ℚ) (hc : 0 ≤ c) :
    qmin 100 (qmin 100 x + c) = qmin 100 (x + c) := by
  unfold qmin
  split_ifs <;> linarith

/-- The C7 scenario: equity already driven to the threshold 30, the
interlude pending (triggered, timer 0), hunts and events drawn far away. -/
def c7Start : GState :=
  { state := 1, runway := 50, equity := 30, traction := 0, distance := 300, pace := 1,
    remedy_active := true, remedy_timer := 0,
    event_timer := 0, next_event_at := 1500, hunt_distance_trigger := 0, hunt_next_at := 1500,
    trail_round_active := false }

/-- The C7 scenario `k` ticks after the player chooses remedy option 3. -/
def c7At (k : Nat) : GState :=
  { c7Start with equity := qmin 100 (55 + 0.3 * k), traction := 5,
                 remedy_timer := (360 : Int) - k,
                 selected_remedy := "Contemplating Truth" }

/-- Choosing option 3 lands exactly on the closed form at `k = 0`. -/
theorem c7_choice : handleRemedy c7Start 3 0 = c7At 0 := by
  simp only [handleRemedy, c7Start, c7At, GState.mk.injEq]
  norm_num [qmin]

/-- The closed form advances through the first 359 interlude ticks. -/
theorem c7_progress : ∀ k, k ≤ 359 → tickN (handleRemedy c7Start 3 0) {} k = c7At k := by
  intro k
  induction k with
  | zero => intro _; exact c7_choice
  | succ j ih =>
    intro hk
    show gameUpdate (tickN (handleRemedy c7Start 3 0) {} j) {} = c7At (j + 1)
    rw [ih (by omega)]
    rw [gameUpdate_remedy_run (c7At j) {} rfl rfl rfl
      (by show 1 < (360 : Int) - j; omega)
      (by norm_num [c7At, c7Start]) (by norm_num [c7At, c7Start])
      (by show (0 : ℚ) ≤ qmin 100 (55 + 0.3 * j)
          refine le_qmin _ _ _ (by norm_num) ?_
          have hj : (0 : ℚ) ≤ (j : ℚ) := Nat.cast_nonneg j
          linarith)
      (by show qmin 100 (55 + 0.3 * (j : ℚ)) ≤ 100; exact qmin_le_left _ _)
      (by norm_num [c7At, c7Start])]
    have ht : (c7At j).remedy_timer - 1 = (c7At (j + 1)).remedy_timer := by
      show ((360 : Int) - (j : Nat)) - 1 = (360 : Int) - ((j : Nat) + 1 : Nat)
      push_cast
      ring
    have he : qmin 100 ((c7At j).equity + 0.3) = (c7At (j + 1)).equity := by
      show qmin 100 (qmin 100 (55 + 0.3 * (j : ℚ)) + 0.3)
          = qmin 100 (55 + 0.3 * (((j : Nat) + 1 : Nat) : ℚ))
      rw [qmin_add_absorb _ _ (by norm_num)]
      congr 1
      push_cast
      ring
    rw [ht, he]
    rfl

/-- The state after the full 360-tick interlude, written out. -/
def c7Done : GState :=
  { c7Start with equity := 100, traction := 5, remedy_active := false, remedy_timer := 0 }

/-- Tick 360 ends the interlude with equity capped at 100. -/
theorem c7_done : tickN (handleRemedy c7Start 3 0) {} 360 = c7Done := by
  show gameUpdate (tickN (handleRemedy c7Start 3 0) {} 359) {} = c7Done
  rw [c7_progress 359 (by omega)]
  rw [gameUpdate_remedy_last (c7At 359) {} rfl rfl rfl
    (by show (360 : Int) - (359 : Nat) = 1; norm_num)
    (by norm_num [c7At, c7Start]) (by norm_num [c7At, c7Start])
    (by show (0 : ℚ) ≤ qmin 100 (55 + 0.3 * (359 : Nat))
        refine le_qmin _ _ _ (by norm_num) ?_
        norm_num)
    (by show qmin 100 (55 + 0.3 * ((359 : Nat) : ℚ)) ≤ 100; exact qmin_le_left _ _)
    (by norm_num [c7At, c7Start])]
  have ht : (c7At 359).remedy_timer - 1 = c7Done.remedy_timer := by
    show ((360 : Int) - (359 : Nat)) - 1 = (0 : Int)
    norm_num
  have he : qmin 100 ((c7At 359).equity + 0.3) = c7Done.equity := by
    show qmin 100 (qmin 100 (55 + 0.3 * ((359 : Nat) : ℚ)) + 0.3) = 100
    rw [qmin_add_absorb _ _ (by norm_num)]
    unfold qmin
    rw [if_pos (by push_cast; norm_num)]
  rw [ht, he]
  rfl

/-- C7 counterexample: after the 360-tick interlude bought by remedy
option 3 from equity 30, equity is 100, not the spec's
min(100, 30+25) = 55 — the interlude itself regenerates 0.3 equity per
tick (main.py line 3041), which over 360 ticks adds 108 more and hits
the 100 cap. -/
theorem C7_counterexample :
    (tickN (handleRemedy c7Start 3 0) {} 360).equity = 100 ∧
    ¬ (tickN (handleRemedy c7Start 3 0) {} 360).equity = 55 := by
  rw [c7_done]
  constructor
  · rfl
  · show ¬ ((100 : ℚ) = 55)
    norm_num

/-- A trail state at equity exactly 30 with no event active and no
remedy running, far from every other trigger. -/
def c7Trigger : GState :=
  { state := 1, runway := 50, equity := 30, traction := 50, distance := 300, pace := 1,
    event_timer := 0, next_event_at := 1500, hunt_distance_trigger := 0, hunt_next_at := 1500,
    trail_round_active := false }

set_option maxHeartbeats 1000000 in
/-- C7 amended: equity at 30 with no active event triggers the recovery
interlude at the end of that very tick (the tick still advances once);
choosing option 3 applies exactly +25 equity (30 → 55) and +5 traction
with duration 360; through the interlude progress halts while equity
regenerates 0.3 per tick capped at 100, so the interlude ends after its
360 ticks with equity 100 — not min(100, 30+25) = 55 — and the next
tick resumes the normal 0.5 advance in state 1. -/
theorem C7_remedy_interlude :
    ((gameUpdate c7Trigger {}).remedy_active = true ∧
     (gameUpdate c7Trigger {}).remedy_timer = 0 ∧
     (gameUpdate c7Trigger {}).current_event = none ∧
     (gameUpdate c7Trigger {}).distance = 300.5) ∧
    ((handleRemedy c7Start 3 0).equity = 55 ∧
     (handleRemedy c7Start 3 0).traction = 5 ∧
     (handleRemedy c7Start 3 0).remedy_timer = 360) ∧
    (∀ k, k ≤ 359 →
      (tickN (handleRemedy c7Start 3 0) {} k).remedy_active = true ∧
      (tickN (handleRemedy c7Start 3 0) {} k).distance = 300) ∧
    ((tickN (handleRemedy c7Start 3 0) {} 360).remedy_active = false ∧
     (tickN (handleRemedy c7Start 3 0) {} 360).equity = 100) ∧
    ((tickN (handleRemedy c7Start 3 0) {} 361).distance = 300.5 ∧
     (tickN (handleRemedy c7Start 3 0) {} 361).state = 1) := by
  refine ⟨?_, ?_, ?_, ?_, ?_⟩
  · refine ⟨?_, ?_, ?_, ?_⟩ <;>
      norm_num [gameUpdate, c7Trigger, clampStats, trailTick, qmin, qmax, paceSpeed,
        paceDrain, triggerRemedy, remedyThreshold, lossCheck, aliveCount]
  · rw [c7_choice]
    refine ⟨?_, rfl, ?_⟩
    · show qmin 100 (55 + 0.3 * ((0 : Nat) : ℚ)) = 55
      norm_num [qmin]
    · show (360 : Int) - ((0 : Nat) : Int) = 360
      norm_num
  · intro k hk
    rw [c7_progress k hk]
    exact ⟨rfl, rfl⟩
  · rw [c7_done]
    exact ⟨rfl, rfl⟩
  · have h361 : tickN (handleRemedy c7Start 3 0) {} 361 = gameUpdate c7Done {} := by
      show gameUpdate (tickN (handleRemedy c7Start 3 0) {} 360) {} = gameUpdate c7Done {}
      rw [c7_done]
    rw [h361]
    constructor <;>
      norm_num [gameUpdate, c7Done, c7Start, clampStats, trailTick, qmin, qmax, paceSpeed,
        paceDrain, triggerRemedy, remedyThreshold, lossCheck, aliveCount]

/-- Witness for `C7_remedy_interlude`: tick 180 of the interlude still
has the remedy running. -/
theorem C7_remedy_interlude_witness :
    (180 : Nat) ≤ 359 ∧ (tickN (handleRemedy c7Start 3 0) {} 180).remedy_active = true :=
  ⟨by decide, (C7_remedy_interlude.2.2.1 180 (by decide)).1⟩

/-- C8: from fresh stats at steady pace, with the event countdown and
hunt thresholds drawn beyond reach, 1000 ticks leave runway at exactly
100 − 1000·0.02 = 80 and distance at exactly 1000·0.5 = 500 (in exact
rational arithmetic; the Python floats accumulate rounding error),
still in the EARLY segment, still in trail state 1 with no death, no
event and no remedy at any point along the way. -/
theorem C8_steady_1000_ticks :
    (tickN c8Init {} 1000).runway = 80 ∧
    (tickN c8Init {} 1000).distance = 500 ∧
    trailSegment (tickN c8Init {} 1000).distance = Segment.early ∧
    (∀ n, n ≤ 1000 →
      (tickN c8Init {} n).state = 1 ∧
      (tickN c8Init {} n).death_quote = none ∧
      (tickN c8Init {} n).current_event = none ∧
      (tickN c8Init {} n).remedy_active = false) := by
  refine ⟨?_, ?_, ?_, ?_⟩
  · rw [c8_reach 1000 (by omega)]
    show (100 : ℚ) - 0.02 * ((1000 : Nat) : ℚ) = 80
    push_cast
    norm_num
  · rw [c8_reach 1000 (by omega)]
    show (0.5 : ℚ) * ((1000 : Nat) : ℚ) = 500
    push_cast
    norm_num
  · rw [c8_reach 1000 (by omega)]
    show trailSegment (0.5 * ((1000 : Nat) : ℚ)) = Segment.early
    unfold trailSegment
    rw [if_pos (by push_cast; norm_num)]
  · intro n hn
    rw [c8_reach n hn]
    exact ⟨rfl, rfl, rfl, rfl⟩

/-- Witness for `C8_steady_1000_ticks`: tick 700 is still in trail
state 1. -/
theorem C8_steady_1000_ticks_witness :
    (700 : Nat) ≤ 1000 ∧ (tickN c8Init {} 700).state = 1 :=
  ⟨by decide, (C8_steady_1000_ticks.2.2.2 700 (by decide)).1⟩
